import Mathlib

/-!
Verification of the fuzzy parking guidance system
(`fuzzy_parking_system.py`).

The repository builds a Mamdani fuzzy inference system out of the
scikit-fuzzy control library: the membership-function breakpoints, the
36 rules, the input validation and the numeric-to-label threshold tables
are all in `fuzzy_parking_system.py` and are embedded here verbatim.
The generic Mamdani machinery itself (triangular/trapezoidal membership
evaluation, min/max/complement antecedent algebra, min-implication
clipping, max-aggregation and discrete centroid defuzzification) lives in
the third-party library, outside this repository's sources; those parts
are modelled from the spec (sections 4.1, 4.3-4.6).

All arithmetic is over `ℚ` (the Python code computes with floats over
integer breakpoints and integer-sampled universes; every quantity that
the claims touch is exactly representable).
-/

namespace FuzzyParking

/-- Membership-function shapes.  The breakpoints of every membership
function in the system are integers (see `_define_input_membership_functions`
and `_define_output_membership_functions`). -/
inductive MF where
  | tri (a b c : ℤ)
  | trap (a b c d : ℤ)
deriving DecidableEq, Repr

/-- Modelled from the spec: membership degree of a crisp value
(spec 4.1): triangular MFs rise linearly from 0 at `a` to 1 at `b` and
fall to 0 at `c` (degenerate `a = b` or `b = c` yields a step, with
degree 1 at the peak `b`); trapezoidal MFs rise on `(a,b)`, hold a
plateau of 1 on `[b,c]` and fall on `(c,d)`.  The concrete shapes are
`fuzz.trimf` / `fuzz.trapmf`, which the repository only calls. -/
def MF.degree : MF → ℚ → ℚ
  | .tri a b c, x =>
      if x = (b : ℚ) then 1
      else if (a : ℚ) < x ∧ x < (b : ℚ) then (x - (a : ℚ)) / ((b : ℚ) - (a : ℚ))
      else if (b : ℚ) < x ∧ x < (c : ℚ) then ((c : ℚ) - x) / ((c : ℚ) - (b : ℚ))
      else 0
  | .trap a b c d, x =>
      if x < (a : ℚ) then 0
      else if x < (b : ℚ) then (x - (a : ℚ)) / ((b : ℚ) - (a : ℚ))
      else if x ≤ (c : ℚ) then 1
      else if x < (d : ℚ) then ((d : ℚ) - x) / ((d : ℚ) - (c : ℚ))
      else 0

/-- Well-formed breakpoints: `trimf` requires `a ≤ b ≤ c`, `trapmf`
requires `a ≤ b ≤ c ≤ d`. -/
def MF.Sorted : MF → Prop
  | .tri a b c => a ≤ b ∧ b ≤ c
  | .trap a b c d => a ≤ b ∧ b ≤ c ∧ c ≤ d

/-- Left end of the support. -/
def MF.support_lo : MF → ℤ
  | .tri a _ _ => a
  | .trap a _ _ _ => a

/-- Right end of the support. -/
def MF.support_hi : MF → ℤ
  | .tri _ _ c => c
  | .trap _ _ _ d => d

/-- Left end of the core (peak / plateau). -/
def MF.core_lo : MF → ℤ
  | .tri _ b _ => b
  | .trap _ b _ _ => b

/-- Right end of the core (peak / plateau). -/
def MF.core_hi : MF → ℤ
  | .tri _ b _ => b
  | .trap _ _ c _ => c

/-- The linguistic terms of the five input variables
(`_define_input_membership_functions`). -/
inductive Term where
  | traffic_Low | traffic_Medium | traffic_High
  | time_EarlyMorning | time_Morning | time_Noon
  | time_Afternoon | time_Evening | time_Night
  | weather_Clear | weather_LightRain | weather_HeavyRain | weather_Snow
  | vacancy_VeryLow | vacancy_Low | vacancy_Medium | vacancy_High | vacancy_VeryHigh
  | user_Regular | user_Member | user_VIP | user_Disabled | user_Staff
deriving DecidableEq, Repr

/-- The membership function of each input term, breakpoints copied from
`_define_input_membership_functions`. -/
def Term.mf : Term → MF
  | .traffic_Low => .trap 0 0 20 40
  | .traffic_Medium => .tri 30 50 70
  | .traffic_High => .trap 60 80 100 100
  | .time_EarlyMorning => .trap 0 0 6 8
  | .time_Morning => .tri 7 9 11
  | .time_Noon => .tri 10 12 14
  | .time_Afternoon => .tri 13 15 18
  | .time_Evening => .tri 17 19 22
  | .time_Night => .trap 21 23 24 24
  | .weather_Clear => .trap 0 0 2 3
  | .weather_LightRain => .tri 2 4 6
  | .weather_HeavyRain => .tri 5 7 9
  | .weather_Snow => .trap 8 9 10 10
  | .vacancy_VeryLow => .trap 0 0 10 20
  | .vacancy_Low => .tri 15 25 35
  | .vacancy_Medium => .tri 30 50 70
  | .vacancy_High => .tri 60 75 90
  | .vacancy_VeryHigh => .trap 85 95 100 100
  | .user_Regular => .tri 1 1 2
  | .user_Member => .tri 1 2 3
  | .user_VIP => .tri 2 3 4
  | .user_Disabled => .tri 3 4 5
  | .user_Staff => .tri 4 5 5

/-- One crisp input tuple: the five arguments of `get_recommendation`. -/
structure Inputs where
  traffic_density : ℚ
  time_of_day : ℚ
  weather_condition : ℚ
  vacancy_rate : ℚ
  user_type : ℚ
deriving DecidableEq, Repr

/-- The crisp input value that a term's variable reads. -/
def Term.crisp : Term → Inputs → ℚ
  | .traffic_Low, i | .traffic_Medium, i | .traffic_High, i => i.traffic_density
  | .time_EarlyMorning, i | .time_Morning, i | .time_Noon, i
  | .time_Afternoon, i | .time_Evening, i | .time_Night, i => i.time_of_day
  | .weather_Clear, i | .weather_LightRain, i
  | .weather_HeavyRain, i | .weather_Snow, i => i.weather_condition
  | .vacancy_VeryLow, i | .vacancy_Low, i | .vacancy_Medium, i
  | .vacancy_High, i | .vacancy_VeryHigh, i => i.vacancy_rate
  | .user_Regular, i | .user_Member, i | .user_VIP, i
  | .user_Disabled, i | .user_Staff, i => i.user_type

/-- Modelled from the spec: fuzzification (spec 4.2) evaluates every
term's membership function at the crisp value of that term's variable. -/
def fuzzify (i : Inputs) (t : Term) : ℚ :=
  t.mf.degree (t.crisp i)

/-- Antecedent expression trees: the `&`, `|`, `~` combinations of terms
used in `_define_fuzzy_rules` (spec 4.3 sum type). -/
inductive Expr where
  | term : Term → Expr
  | and : Expr → Expr → Expr
  | or : Expr → Expr → Expr
  | not : Expr → Expr
deriving DecidableEq, Repr

/-- Modelled from the spec: Mamdani antecedent algebra (spec 4.3):
`And` is min, `Or` is max, `Not` is complement, a term reads its
fuzzified degree. -/
def strength (m : Term → ℚ) : Expr → ℚ
  | .term t => m t
  | .and l r => min (strength m l) (strength m r)
  | .or l r => max (strength m l) (strength m r)
  | .not e => 1 - strength m e

/-- The linguistic terms of the two output variables
(`_define_output_membership_functions`). -/
inductive OutTerm where
  | area_A | area_B | area_C | area_D | area_E
  | wait_VeryShort | wait_Short | wait_Medium | wait_Long | wait_VeryLong
deriving DecidableEq, Repr

/-- Output membership functions, breakpoints copied from
`_define_output_membership_functions`. -/
def OutTerm.mf : OutTerm → MF
  | .area_A => .tri 1 1 2
  | .area_B => .tri 1 2 3
  | .area_C => .tri 2 3 4
  | .area_D => .tri 3 4 5
  | .area_E => .tri 4 5 5
  | .wait_VeryShort => .trap 0 0 2 5
  | .wait_Short => .tri 3 7 11
  | .wait_Medium => .tri 9 13 17
  | .wait_Long => .tri 15 20 25
  | .wait_VeryLong => .trap 23 28 30 30

/-- All input terms, in source definition order. -/
def allTerms : List Term :=
  [ .traffic_Low, .traffic_Medium, .traffic_High
  , .time_EarlyMorning, .time_Morning, .time_Noon
  , .time_Afternoon, .time_Evening, .time_Night
  , .weather_Clear, .weather_LightRain, .weather_HeavyRain, .weather_Snow
  , .vacancy_VeryLow, .vacancy_Low, .vacancy_Medium, .vacancy_High, .vacancy_VeryHigh
  , .user_Regular, .user_Member, .user_VIP, .user_Disabled, .user_Staff ]

/-- All output terms, in source definition order. -/
def allOutTerms : List OutTerm :=
  [ .area_A, .area_B, .area_C, .area_D, .area_E
  , .wait_VeryShort, .wait_Short, .wait_Medium, .wait_Long, .wait_VeryLong ]

/-- Every membership function the engine defines (inputs then outputs). -/
def engineMFs : List MF :=
  allTerms.map Term.mf ++ allOutTerms.map OutTerm.mf

/-- The two output variables. -/
inductive OutVar where
  | recommended_area
  | waiting_time
deriving DecidableEq, Repr

/-- The output variable an output term belongs to. -/
def OutTerm.var : OutTerm → OutVar
  | .area_A | .area_B | .area_C | .area_D | .area_E => .recommended_area
  | .wait_VeryShort | .wait_Short | .wait_Medium
  | .wait_Long | .wait_VeryLong => .waiting_time

/-- Sampled universe of each output variable: `np.arange(1, 6, 1)` for
the area, `np.arange(0, 31, 1)` for the waiting time. -/
def OutVar.universe : OutVar → List ℚ
  | .recommended_area => [1, 2, 3, 4, 5]
  | .waiting_time => (List.range 31).map fun n => (n : ℚ)

/-- A fuzzy rule: antecedent expression plus the single consequent term
each `ctrl.Rule` in this system carries (weight 1). -/
structure Rule where
  antecedent : Expr
  consequent : OutTerm
deriving DecidableEq, Repr

/-- The rule list of `_define_fuzzy_rules`, in source order. -/
def rules : List Rule :=
  [ ⟨.term .vacancy_VeryHigh, .area_A⟩
  , ⟨.and (.term .vacancy_High) (.term .user_Regular), .area_B⟩
  , ⟨.and (.term .vacancy_High) (.not (.term .user_Regular)), .area_A⟩
  , ⟨.and (.term .vacancy_Medium) (.term .user_Regular), .area_C⟩
  , ⟨.and (.term .vacancy_Medium) (.term .user_Member), .area_B⟩
  , ⟨.and (.term .vacancy_Medium)
      (.or (.or (.term .user_VIP) (.term .user_Disabled)) (.term .user_Staff)), .area_A⟩
  , ⟨.and (.term .vacancy_Low) (.term .user_Regular), .area_D⟩
  , ⟨.and (.term .vacancy_Low) (.term .user_Member), .area_C⟩
  , ⟨.and (.term .vacancy_Low) (.term .user_VIP), .area_B⟩
  , ⟨.and (.term .vacancy_Low) (.or (.term .user_Disabled) (.term .user_Staff)), .area_A⟩
  , ⟨.and (.term .vacancy_VeryLow) (.or (.term .user_Regular) (.term .user_Member)), .area_E⟩
  , ⟨.and (.term .vacancy_VeryLow) (.term .user_VIP), .area_D⟩
  , ⟨.and (.term .vacancy_VeryLow) (.or (.term .user_Disabled) (.term .user_Staff)), .area_C⟩
  , ⟨.and (.term .weather_Snow) (.term .user_Disabled), .area_A⟩
  , ⟨.and (.term .weather_HeavyRain) (.term .user_Disabled), .area_A⟩
  , ⟨.and (.term .traffic_Low) (.term .vacancy_VeryHigh), .wait_VeryShort⟩
  , ⟨.and (.term .traffic_Low) (.term .vacancy_High), .wait_VeryShort⟩
  , ⟨.and (.term .traffic_Low) (.term .vacancy_Medium), .wait_Short⟩
  , ⟨.and (.term .traffic_Low) (.term .vacancy_Low), .wait_Medium⟩
  , ⟨.and (.term .traffic_Low) (.term .vacancy_VeryLow), .wait_Long⟩
  , ⟨.and (.term .traffic_Medium) (.term .vacancy_VeryHigh), .wait_Short⟩
  , ⟨.and (.term .traffic_Medium) (.term .vacancy_High), .wait_Short⟩
  , ⟨.and (.term .traffic_Medium) (.term .vacancy_Medium), .wait_Medium⟩
  , ⟨.and (.term .traffic_Medium) (.term .vacancy_Low), .wait_Long⟩
  , ⟨.and (.term .traffic_Medium) (.term .vacancy_VeryLow), .wait_VeryLong⟩
  , ⟨.and (.term .traffic_High) (.term .vacancy_VeryHigh), .wait_Medium⟩
  , ⟨.and (.term .traffic_High) (.term .vacancy_High), .wait_Medium⟩
  , ⟨.and (.term .traffic_High) (.term .vacancy_Medium), .wait_Long⟩
  , ⟨.and (.term .traffic_High) (.term .vacancy_Low), .wait_VeryLong⟩
  , ⟨.and (.term .traffic_High) (.term .vacancy_VeryLow), .wait_VeryLong⟩
  , ⟨.and (.or (.term .time_Morning) (.term .time_Afternoon)) (.term .traffic_High), .wait_VeryLong⟩
  , ⟨.or (.term .weather_HeavyRain) (.term .weather_Snow), .wait_Long⟩
  , ⟨.and (.term .time_Night) (.not (.term .vacancy_VeryLow)), .wait_VeryShort⟩
  , ⟨.and (.term .time_Morning) (.or (.term .vacancy_High) (.term .vacancy_VeryHigh)), .area_A⟩
  , ⟨.and (.term .time_Evening) (.term .traffic_High), .wait_VeryLong⟩
  , ⟨.term .time_Night, .area_A⟩
  ]

/-- Modelled from the spec: the clipped contributions for output
variable `v` (spec 4.4): each rule whose consequent targets `v`
contributes its consequent membership function together with the rule's
firing strength. -/
def contributions (rs : List Rule) (m : Term → ℚ) (v : OutVar) : List (MF × ℚ) :=
  rs.filterMap fun r =>
    if r.consequent.var = v then some (r.consequent.mf, strength m r.antecedent) else none

/-- Pointwise value at `x` of the max-aggregation of a list of clipped
contributions: each membership function is clipped (min) at its firing
strength (Mamdani min-implication) and the results are folded with max,
starting from the all-zero set. -/
def clipAgg (cl : List (MF × ℚ)) (x : ℚ) : ℚ :=
  (cl.map fun c => min (c.1.degree x) c.2).foldr max 0

/-- Modelled from the spec: Mamdani max-aggregation (spec 4.5) — the
combined output fuzzy set of variable `v` at point `x`. -/
def aggregateAt (rs : List Rule) (m : Term → ℚ) (v : OutVar) (x : ℚ) : ℚ :=
  clipAgg (contributions rs m v) x

/-- Modelled from the spec: discrete centroid defuzzification (spec 4.6):
`Σ(x_i * μ(x_i)) / Σ(μ(x_i))` over the sampled domain points, failing
(an empty aggregate) when the denominator is zero. -/
def centroid (dom : List ℚ) (μ : ℚ → ℚ) : Option ℚ :=
  if (dom.map μ).sum = 0 then none
  else some ((dom.map fun x => x * μ x).sum / (dom.map μ).sum)

/-- A successful recommendation: the four entries of the dict returned by
`get_recommendation` on success. -/
structure Recommendation where
  recommended_area_value : ℚ
  recommended_area_text : String
  waiting_time_value : ℚ
  waiting_time_text : String
deriving DecidableEq, Repr

/-- `_get_area_text`: the fixed numeric-to-label threshold table for the
recommended area. -/
def get_area_text (area_value : ℚ) : String :=
  if area_value < 3/2 then "Area A (Closest to entrance)"
  else if area_value < 5/2 then "Area B"
  else if area_value < 7/2 then "Area C"
  else if area_value < 9/2 then "Area D"
  else "Area E (Farthest from entrance)"

/-- `_get_waiting_time_text`: the fixed numeric-to-label threshold table
for the waiting time. -/
def get_waiting_time_text (time_value : ℚ) : String :=
  if time_value < 3 then "Very Short (< 3 minutes)"
  else if time_value < 9 then "Short (3-9 minutes)"
  else if time_value < 15 then "Medium (9-15 minutes)"
  else if time_value < 23 then "Long (15-23 minutes)"
  else "Very Long (>23 minutes)"

/-- `get_recommendation`, parametrised by the rule list so that rule-order
claims can be stated.  Validation mirrors the Python guards in source
order; the computation is the spec-modelled Mamdani pipeline
(fuzzify, evaluate, aggregate, centroid); an empty aggregate surfaces as
the error result the Python `except` branch returns. -/
def get_recommendation_with (rs : List Rule)
    (traffic_density_val time_of_day_val weather_condition_val
      vacancy_rate_val user_type_val : ℚ) : Except String Recommendation :=
  if ¬ (0 ≤ traffic_density_val ∧ traffic_density_val ≤ 100) then
    .error "Traffic density must be between 0 and 100%"
  else if ¬ (0 ≤ time_of_day_val ∧ time_of_day_val ≤ 24) then
    .error "Time of day must be between 0 and 24 hours"
  else if ¬ (0 ≤ weather_condition_val ∧ weather_condition_val ≤ 10) then
    .error "Weather condition must be between 0 and 10"
  else if ¬ (0 ≤ vacancy_rate_val ∧ vacancy_rate_val ≤ 100) then
    .error "Vacancy rate must be between 0 and 100%"
  else if ¬ (1 ≤ user_type_val ∧ user_type_val ≤ 5) then
    .error "User type must be between 1 and 5"
  else
    let m := fuzzify ⟨traffic_density_val, time_of_day_val, weather_condition_val,
      vacancy_rate_val, user_type_val⟩
    match centroid OutVar.recommended_area.universe (aggregateAt rs m .recommended_area),
          centroid OutVar.waiting_time.universe (aggregateAt rs m .waiting_time) with
    | some a, some w => .ok ⟨a, get_area_text a, w, get_waiting_time_text w⟩
    | _, _ => .error "Crisp output cannot be calculated, likely because the system is too sparse"

/-- `get_recommendation` with the engine's own rule list. -/
def get_recommendation (traffic_density_val time_of_day_val weather_condition_val
    vacancy_rate_val user_type_val : ℚ) : Except String Recommendation :=
  get_recommendation_with rules traffic_density_val time_of_day_val
    weather_condition_val vacancy_rate_val user_type_val

/-- Fuzzified degrees of the input tuple
`(traffic 10, time 12, weather 0, vacancy 95, user 1)`. -/
def m1 : Term → ℚ
  | .traffic_Low => 1 | .traffic_Medium => 0 | .traffic_High => 0
  | .time_EarlyMorning => 0 | .time_Morning => 0 | .time_Noon => 1
  | .time_Afternoon => 0 | .time_Evening => 0 | .time_Night => 0
  | .weather_Clear => 1 | .weather_LightRain => 0 | .weather_HeavyRain => 0
  | .weather_Snow => 0
  | .vacancy_VeryLow => 0 | .vacancy_Low => 0 | .vacancy_Medium => 0
  | .vacancy_High => 0 | .vacancy_VeryHigh => 1
  | .user_Regular => 1 | .user_Member => 0 | .user_VIP => 0
  | .user_Disabled => 0 | .user_Staff => 0

/-- Fuzzified degrees of the input tuple
`(traffic 50, time 24, weather 5, vacancy 50, user 3)`. -/
def m2 : Term → ℚ
  | .traffic_Low => 0 | .traffic_Medium => 1 | .traffic_High => 0
  | .time_EarlyMorning => 0 | .time_Morning => 0 | .time_Noon => 0
  | .time_Afternoon => 0 | .time_Evening => 0 | .time_Night => 1
  | .weather_Clear => 0 | .weather_LightRain => 1/2 | .weather_HeavyRain => 0
  | .weather_Snow => 0
  | .vacancy_VeryLow => 0 | .vacancy_Low => 0 | .vacancy_Medium => 1
  | .vacancy_High => 0 | .vacancy_VeryHigh => 0
  | .user_Regular => 0 | .user_Member => 0 | .user_VIP => 1
  | .user_Disabled => 0 | .user_Staff => 0

/-- Fuzzified degrees of the input tuple
`(traffic 50, time 12, weather 5, vacancy 0, user 3)`. -/
def m3 : Term → ℚ
  | .traffic_Low => 0 | .traffic_Medium => 1 | .traffic_High => 0
  | .time_EarlyMorning => 0 | .time_Morning => 0 | .time_Noon => 1
  | .time_Afternoon => 0 | .time_Evening => 0 | .time_Night => 0
  | .weather_Clear => 0 | .weather_LightRain => 1/2 | .weather_HeavyRain => 0
  | .weather_Snow => 0
  | .vacancy_VeryLow => 1 | .vacancy_Low => 0 | .vacancy_Medium => 0
  | .vacancy_High => 0 | .vacancy_VeryHigh => 0
  | .user_Regular => 0 | .user_Member => 0 | .user_VIP => 1
  | .user_Disabled => 0 | .user_Staff => 0

/-- Fuzzified degrees of the input tuple
`(traffic 50, time 12, weather 9, vacancy 0, user 4)`. -/
def m4 : Term → ℚ
  | .traffic_Low => 0 | .traffic_Medium => 1 | .traffic_High => 0
  | .time_EarlyMorning => 0 | .time_Morning => 0 | .time_Noon => 1
  | .time_Afternoon => 0 | .time_Evening => 0 | .time_Night => 0
  | .weather_Clear => 0 | .weather_LightRain => 0 | .weather_HeavyRain => 0
  | .weather_Snow => 1
  | .vacancy_VeryLow => 1 | .vacancy_Low => 0 | .vacancy_Medium => 0
  | .vacancy_High => 0 | .vacancy_VeryHigh => 0
  | .user_Regular => 0 | .user_Member => 0 | .user_VIP => 0
  | .user_Disabled => 1 | .user_Staff => 0

/-- Fuzzified degrees of `(traffic 50, time 12, weather 9, vacancy v, user 4)`
with the vacancy degrees left symbolic in `v`. -/
def mC8 (v : ℚ) : Term → ℚ
  | .traffic_Low => 0 | .traffic_Medium => 1 | .traffic_High => 0
  | .time_EarlyMorning => 0 | .time_Morning => 0 | .time_Noon => 1
  | .time_Afternoon => 0 | .time_Evening => 0 | .time_Night => 0
  | .weather_Clear => 0 | .weather_LightRain => 0 | .weather_HeavyRain => 0
  | .weather_Snow => 1
  | .vacancy_VeryLow => (MF.trap 0 0 10 20).degree v
  | .vacancy_Low => (MF.tri 15 25 35).degree v
  | .vacancy_Medium => (MF.tri 30 50 70).degree v
  | .vacancy_High => (MF.tri 60 75 90).degree v
  | .vacancy_VeryHigh => (MF.trap 85 95 100 100).degree v
  | .user_Regular => 0 | .user_Member => 0 | .user_VIP => 0
  | .user_Disabled => 1 | .user_Staff => 0

/-- The clipped area contributions of the rule list under `mC8 v`,
written out with the vacancy degrees symbolic. -/
def areaContribsC8 (v : ℚ) : List (MF × ℚ) :=
  [ (MF.tri 1 1 2, (MF.trap 85 95 100 100).degree v)
  , (MF.tri 1 2 3, min ((MF.tri 60 75 90).degree v) 0)
  , (MF.tri 1 1 2, min ((MF.tri 60 75 90).degree v) 1)
  , (MF.tri 2 3 4, min ((MF.tri 30 50 70).degree v) 0)
  , (MF.tri 1 2 3, min ((MF.tri 30 50 70).degree v) 0)
  , (MF.tri 1 1 2, min ((MF.tri 30 50 70).degree v) 1)
  , (MF.tri 3 4 5, min ((MF.tri 15 25 35).degree v) 0)
  , (MF.tri 2 3 4, min ((MF.tri 15 25 35).degree v) 0)
  , (MF.tri 1 2 3, min ((MF.tri 15 25 35).degree v) 0)
  , (MF.tri 1 1 2, min ((MF.tri 15 25 35).degree v) 1)
  , (MF.tri 4 5 5, min ((MF.trap 0 0 10 20).degree v) 0)
  , (MF.tri 3 4 5, min ((MF.trap 0 0 10 20).degree v) 0)
  , (MF.tri 2 3 4, min ((MF.trap 0 0 10 20).degree v) 1)
  , (MF.tri 1 1 2, 1)
  , (MF.tri 1 1 2, 0)
  , (MF.tri 1 1 2, min 0 (max ((MF.tri 60 75 90).degree v) ((MF.trap 85 95 100 100).degree v)))
  , (MF.tri 1 1 2, 0) ]

/-- The clipped waiting-time contributions of the rule list under
`mC8 v`, written out with the vacancy degrees symbolic. -/
def waitContribsC8 (v : ℚ) : List (MF × ℚ) :=
  [ (MF.trap 0 0 2 5, min 0 ((MF.trap 85 95 100 100).degree v))
  , (MF.trap 0 0 2 5, min 0 ((MF.tri 60 75 90).degree v))
  , (MF.tri 3 7 11, min 0 ((MF.tri 30 50 70).degree v))
  , (MF.tri 9 13 17, min 0 ((MF.tri 15 25 35).degree v))
  , (MF.tri 15 20 25, min 0 ((MF.trap 0 0 10 20).degree v))
  , (MF.tri 3 7 11, min 1 ((MF.trap 85 95 100 100).degree v))
  , (MF.tri 3 7 11, min 1 ((MF.tri 60 75 90).degree v))
  , (MF.tri 9 13 17, min 1 ((MF.tri 30 50 70).degree v))
  , (MF.tri 15 20 25, min 1 ((MF.tri 15 25 35).degree v))
  , (MF.trap 23 28 30 30, min 1 ((MF.trap 0 0 10 20).degree v))
  , (MF.tri 9 13 17, min 0 ((MF.trap 85 95 100 100).degree v))
  , (MF.tri 9 13 17, min 0 ((MF.tri 60 75 90).degree v))
  , (MF.tri 15 20 25, min 0 ((MF.tri 30 50 70).degree v))
  , (MF.trap 23 28 30 30, min 0 ((MF.tri 15 25 35).degree v))
  , (MF.trap 23 28 30 30, min 0 ((MF.trap 0 0 10 20).degree v))
  , (MF.trap 23 28 30 30, 0)
  , (MF.tri 15 20 25, 1)
  , (MF.trap 0 0 2 5, min 0 (1 - (MF.trap 0 0 10 20).degree v))
  , (MF.trap 23 28 30 30, 0) ]

instance (mf : MF) : Decidable mf.Sorted :=
  match mf with
  | .tri a b c => inferInstanceAs (Decidable (a ≤ b ∧ b ≤ c))
  | .trap a b c d => inferInstanceAs (Decidable (a ≤ b ∧ b ≤ c ∧ c ≤ d))

theorem MF.degree_nonneg (mf : MF) (x : ℚ) : 0 ≤ mf.degree x := by
  cases mf with
  | tri a b c =>
    simp only [MF.degree]
    split_ifs with h1 h2 h3
    · norm_num
    · exact div_nonneg (by linarith [h2.1]) (by linarith [h2.1, h2.2])
    · exact div_nonneg (by linarith [h3.2]) (by linarith [h3.1, h3.2])
    · exact le_refl 0
  | trap a b c d =>
    simp only [MF.degree]
    split_ifs with h1 h2 h3 h4
    · exact le_refl 0
    · have := not_lt.mp h1
      exact div_nonneg (by linarith) (by linarith)
    · norm_num
    · have := not_le.mp h3
      exact div_nonneg (by linarith [h4]) (by linarith)
    · exact le_refl 0

theorem MF.degree_le_one (mf : MF) (x : ℚ) : mf.degree x ≤ 1 := by
  cases mf with
  | tri a b c =>
    simp only [MF.degree]
    split_ifs with h1 h2 h3
    · exact le_refl 1
    · rw [div_le_one (by linarith [h2.1, h2.2])]
      linarith [h2.2]
    · rw [div_le_one (by linarith [h3.1, h3.2])]
      linarith [h3.1]
    · norm_num
  | trap a b c d =>
    simp only [MF.degree]
    split_ifs with h1 h2 h3 h4
    · norm_num
    · have := not_lt.mp h1
      rw [div_le_one (by linarith)]
      linarith
    · exact le_refl 1
    · have := not_le.mp h3
      rw [div_le_one (by linarith)]
      linarith
    · norm_num

theorem MF.tri_deg_rise {a b c : ℤ} {x : ℚ} (hab : (a : ℚ) < (b : ℚ))
    (hax : (a : ℚ) ≤ x) (hxb : x ≤ (b : ℚ)) :
    (MF.tri a b c).degree x = (x - (a : ℚ)) / ((b : ℚ) - (a : ℚ)) := by
  have hba : (b : ℚ) - (a : ℚ) ≠ 0 := ne_of_gt (by linarith)
  simp only [MF.degree]
  rcases eq_or_lt_of_le hxb with rfl | hlt
  · rw [if_pos rfl, div_self hba]
  · have hxb' : ¬ (x = (b : ℚ)) := ne_of_lt hlt
    rcases eq_or_lt_of_le hax with rfl | hax'
    · rw [if_neg hxb', if_neg (by intro h; exact lt_irrefl _ h.1),
        if_neg (by intro h; linarith [h.1]), sub_self, zero_div]
    · rw [if_neg hxb', if_pos ⟨hax', hlt⟩]

theorem MF.tri_deg_fall {a b c : ℤ} {x : ℚ} (hbc : (b : ℚ) < (c : ℚ))
    (hbx : (b : ℚ) ≤ x) (hxc : x ≤ (c : ℚ)) :
    (MF.tri a b c).degree x = ((c : ℚ) - x) / ((c : ℚ) - (b : ℚ)) := by
  have hcb : (c : ℚ) - (b : ℚ) ≠ 0 := ne_of_gt (by linarith)
  simp only [MF.degree]
  rcases eq_or_lt_of_le hbx with rfl | hlt
  · rw [if_pos rfl, div_self hcb]
  · have hxb' : ¬ (x = (b : ℚ)) := by intro h; rw [h] at hlt; exact lt_irrefl _ hlt
    rcases eq_or_lt_of_le hxc with rfl | hxc'
    · rw [if_neg hxb', if_neg (by intro h; linarith [h.2]),
        if_neg (by intro h; exact lt_irrefl _ h.2), sub_self, zero_div]
    · rw [if_neg hxb', if_neg (by intro h; linarith [h.2]), if_pos ⟨hlt, hxc'⟩]

theorem MF.trap_deg_rise {a b c d : ℤ} {x : ℚ} (hab : (a : ℚ) < (b : ℚ))
    (hbc : (b : ℚ) ≤ (c : ℚ)) (hax : (a : ℚ) ≤ x) (hxb : x ≤ (b : ℚ)) :
    (MF.trap a b c d).degree x = (x - (a : ℚ)) / ((b : ℚ) - (a : ℚ)) := by
  have hba : (b : ℚ) - (a : ℚ) ≠ 0 := ne_of_gt (by linarith)
  simp only [MF.degree]
  rcases eq_or_lt_of_le hxb with rfl | hlt
  · rw [if_neg (not_lt.mpr (by linarith)), if_neg (lt_irrefl _), if_pos hbc, div_self hba]
  · rw [if_neg (not_lt.mpr hax), if_pos hlt]

theorem MF.trap_deg_fall {a b c d : ℤ} {x : ℚ} (hab : (a : ℚ) ≤ (b : ℚ))
    (hbc : (b : ℚ) ≤ (c : ℚ)) (hcd : (c : ℚ) < (d : ℚ))
    (hcx : (c : ℚ) ≤ x) (hxd : x ≤ (d : ℚ)) :
    (MF.trap a b c d).degree x = ((d : ℚ) - x) / ((d : ℚ) - (c : ℚ)) := by
  have hdc : (d : ℚ) - (c : ℚ) ≠ 0 := ne_of_gt (by linarith)
  simp only [MF.degree]
  rcases eq_or_lt_of_le hcx with rfl | hlt
  · rw [if_neg (not_lt.mpr (by linarith)), if_neg (not_lt.mpr hbc), if_pos le_rfl, div_self hdc]
  · rcases eq_or_lt_of_le hxd with rfl | hxd'
    · rw [if_neg (not_lt.mpr (by linarith)), if_neg (not_lt.mpr (by linarith)),
        if_neg (not_le.mpr (by linarith)), if_neg (lt_irrefl _), sub_self, zero_div]
    · rw [if_neg (not_lt.mpr (by linarith)), if_neg (not_lt.mpr (by linarith)),
        if_neg (not_le.mpr hlt), if_pos hxd']

theorem MF.tri_deg_peak (a b c : ℤ) : (MF.tri a b c).degree (b : ℚ) = 1 := by
  simp [MF.degree]

theorem MF.trap_deg_core {a b c d : ℤ} {x : ℚ} (hab : (a : ℚ) ≤ (b : ℚ))
    (hbx : (b : ℚ) ≤ x) (hxc : x ≤ (c : ℚ)) :
    (MF.trap a b c d).degree x = 1 := by
  simp only [MF.degree]
  rw [if_neg (not_lt.mpr (by linarith)), if_neg (not_lt.mpr hbx), if_pos hxc]

theorem MF.tri_deg_outside {a b c : ℤ} {x : ℚ} (hab : (a : ℚ) ≤ (b : ℚ))
    (hbc : (b : ℚ) ≤ (c : ℚ)) (h : x < (a : ℚ) ∨ (c : ℚ) < x) :
    (MF.tri a b c).degree x = 0 := by
  simp only [MF.degree]
  rcases h with h | h
  · rw [if_neg (by intro hx; linarith [le_of_eq hx.symm]),
      if_neg (by intro hx; linarith [hx.1]), if_neg (by intro hx; linarith [hx.1])]
  · rw [if_neg (by intro hx; linarith [le_of_eq hx]),
      if_neg (by intro hx; linarith [hx.2]), if_neg (by intro hx; linarith [hx.2])]

theorem MF.trap_deg_outside {a b c d : ℤ} {x : ℚ} (hab : (a : ℚ) ≤ (b : ℚ))
    (hbc : (b : ℚ) ≤ (c : ℚ)) (hcd : (c : ℚ) ≤ (d : ℚ))
    (h : x < (a : ℚ) ∨ (d : ℚ) < x) :
    (MF.trap a b c d).degree x = 0 := by
  simp only [MF.degree]
  rcases h with h | h
  · rw [if_pos h]
  · rw [if_neg (not_lt.mpr (by linarith)), if_neg (not_lt.mpr (by linarith)),
      if_neg (not_le.mpr (by linarith)), if_neg (not_lt.mpr (by linarith))]

theorem MF.tri_rise_mono {a b c : ℤ} {x y : ℚ} (hax : (a : ℚ) ≤ x) (hxy : x ≤ y)
    (hyb : y ≤ (b : ℚ)) : (MF.tri a b c).degree x ≤ (MF.tri a b c).degree y := by
  rcases lt_or_le (a : ℚ) (b : ℚ) with hab | hba
  · rw [MF.tri_deg_rise hab hax (hxy.trans hyb), MF.tri_deg_rise hab (hax.trans hxy) hyb]
    exact (div_le_div_iff_of_pos_right (by linarith)).mpr (by linarith)
  · have hx : x = (b : ℚ) := le_antisymm (hxy.trans hyb) (hba.trans hax)
    have hy : y = (b : ℚ) := le_antisymm hyb (hba.trans (hax.trans hxy))
    rw [hx, hy]

theorem MF.tri_fall_anti {a b c : ℤ} {x y : ℚ} (hbx : (b : ℚ) ≤ x) (hxy : x ≤ y)
    (hyc : y ≤ (c : ℚ)) : (MF.tri a b c).degree y ≤ (MF.tri a b c).degree x := by
  rcases lt_or_le (b : ℚ) (c : ℚ) with hbc | hcb
  · rw [MF.tri_deg_fall hbc hbx (hxy.trans hyc), MF.tri_deg_fall hbc (hbx.trans hxy) hyc]
    exact (div_le_div_iff_of_pos_right (by linarith)).mpr (by linarith)
  · have hx : x = (b : ℚ) := le_antisymm ((hxy.trans hyc).trans hcb) hbx
    have hy : y = (b : ℚ) := le_antisymm (hyc.trans hcb) (hbx.trans hxy)
    rw [hx, hy]

theorem MF.trap_rise_mono {a b c d : ℤ} {x y : ℚ} (hbc : (b : ℚ) ≤ (c : ℚ))
    (hax : (a : ℚ) ≤ x) (hxy : x ≤ y) (hyb : y ≤ (b : ℚ)) :
    (MF.trap a b c d).degree x ≤ (MF.trap a b c d).degree y := by
  rcases lt_or_le (a : ℚ) (b : ℚ) with hab | hba
  · rw [MF.trap_deg_rise hab hbc hax (hxy.trans hyb), MF.trap_deg_rise hab hbc (hax.trans hxy) hyb]
    exact (div_le_div_iff_of_pos_right (by linarith)).mpr (by linarith)
  · have hx : x = (b : ℚ) := le_antisymm (hxy.trans hyb) (hba.trans hax)
    have hy : y = (b : ℚ) := le_antisymm hyb (hba.trans (hax.trans hxy))
    rw [hx, hy]

theorem MF.trap_fall_anti {a b c d : ℤ} {x y : ℚ} (hab : (a : ℚ) ≤ (b : ℚ))
    (hbc : (b : ℚ) ≤ (c : ℚ)) (hcx : (c : ℚ) ≤ x) (hxy : x ≤ y) (hyd : y ≤ (d : ℚ)) :
    (MF.trap a b c d).degree y ≤ (MF.trap a b c d).degree x := by
  rcases lt_or_le (c : ℚ) (d : ℚ) with hcd | hdc
  · rw [MF.trap_deg_fall hab hbc hcd hcx (hxy.trans hyd),
      MF.trap_deg_fall hab hbc hcd (hcx.trans hxy) hyd]
    exact (div_le_div_iff_of_pos_right (by linarith)).mpr (by linarith)
  · have hx : x = (c : ℚ) := le_antisymm ((hxy.trans hyd).trans hdc) hcx
    have hy : y = (c : ℚ) := le_antisymm (hyd.trans hdc) (hcx.trans hxy)
    rw [hx, hy]

/-- The qualitative shape properties of a well-formed membership function:
zero outside the support, one on the core, monotone on the rising ramp,
antitone on the falling ramp. -/
theorem MF.props (mf : MF) (h : mf.Sorted) :
    (∀ x : ℚ, (x < (mf.support_lo : ℚ) ∨ (mf.support_hi : ℚ) < x) → mf.degree x = 0) ∧
    (∀ x : ℚ, (mf.core_lo : ℚ) ≤ x → x ≤ (mf.core_hi : ℚ) → mf.degree x = 1) ∧
    (∀ x y : ℚ, (mf.support_lo : ℚ) ≤ x → x ≤ y → y ≤ (mf.core_lo : ℚ) →
      mf.degree x ≤ mf.degree y) ∧
    (∀ x y : ℚ, (mf.core_hi : ℚ) ≤ x → x ≤ y → y ≤ (mf.support_hi : ℚ) →
      mf.degree y ≤ mf.degree x) := by
  cases mf with
  | tri a b c =>
    have h' : a ≤ b ∧ b ≤ c := h
    have hab : (a : ℚ) ≤ (b : ℚ) := by exact_mod_cast h'.1
    have hbc : (b : ℚ) ≤ (c : ℚ) := by exact_mod_cast h'.2
    refine ⟨fun x hx => MF.tri_deg_outside hab hbc hx,
      fun x h1 h2 => ?_,
      fun x y h1 h2 h3 => MF.tri_rise_mono h1 h2 h3,
      fun x y h1 h2 h3 => MF.tri_fall_anti h1 h2 h3⟩
    have hx : x = (b : ℚ) := le_antisymm h2 h1
    rw [hx]
    exact MF.tri_deg_peak a b c
  | trap a b c d =>
    have h' : a ≤ b ∧ b ≤ c ∧ c ≤ d := h
    have hab : (a : ℚ) ≤ (b : ℚ) := by exact_mod_cast h'.1
    have hbc : (b : ℚ) ≤ (c : ℚ) := by exact_mod_cast h'.2.1
    have hcd : (c : ℚ) ≤ (d : ℚ) := by exact_mod_cast h'.2.2
    exact ⟨fun x hx => MF.trap_deg_outside hab hbc hcd hx,
      fun x h1 h2 => MF.trap_deg_core hab h1 h2,
      fun x y h1 h2 h3 => MF.trap_rise_mono hbc h1 h2 h3,
      fun x y h1 h2 h3 => MF.trap_fall_anti hab hbc h1 h2 h3⟩

theorem clipAgg_nil (x : ℚ) : clipAgg [] x = 0 := rfl

theorem clipAgg_cons (c : MF × ℚ) (cl : List (MF × ℚ)) (x : ℚ) :
    clipAgg (c :: cl) x = max (min (c.1.degree x) c.2) (clipAgg cl x) := rfl

theorem clipAgg_nonneg (cl : List (MF × ℚ)) (x : ℚ) : 0 ≤ clipAgg cl x := by
  induction cl with
  | nil => exact le_refl 0
  | cons c cl ih => rw [clipAgg_cons]; exact ih.trans (le_max_right _ _)

theorem clipAgg_zero_cons (mf : MF) (cl : List (MF × ℚ)) (x : ℚ) :
    clipAgg ((mf, 0) :: cl) x = clipAgg cl x := by
  rw [clipAgg_cons]
  show max (min (mf.degree x) 0) (clipAgg cl x) = clipAgg cl x
  rw [min_eq_right (MF.degree_nonneg mf x), max_eq_right (clipAgg_nonneg cl x)]

theorem clipAgg_one_cons (mf : MF) (cl : List (MF × ℚ)) (x : ℚ) :
    clipAgg ((mf, 1) :: cl) x = max (mf.degree x) (clipAgg cl x) := by
  rw [clipAgg_cons]
  show max (min (mf.degree x) 1) (clipAgg cl x) = _
  rw [min_eq_left (MF.degree_le_one mf x)]

theorem fuzzify_mem_Icc (i : Inputs) (t : Term) : 0 ≤ fuzzify i t ∧ fuzzify i t ≤ 1 :=
  ⟨MF.degree_nonneg _ _, MF.degree_le_one _ _⟩

theorem strength_mem_Icc (m : Term → ℚ) (hm : ∀ t, 0 ≤ m t ∧ m t ≤ 1) (e : Expr) :
    0 ≤ strength m e ∧ strength m e ≤ 1 := by
  induction e with
  | term t => exact hm t
  | and l r ihl ihr =>
    exact ⟨le_min ihl.1 ihr.1, (min_le_left _ _).trans ihl.2⟩
  | or l r ihl ihr =>
    exact ⟨ihl.1.trans (le_max_left _ _), max_le ihl.2 ihr.2⟩
  | not e ih =>
    have hs : strength m (Expr.not e) = 1 - strength m e := rfl
    rw [hs]
    constructor <;> [linarith [ih.2]; linarith [ih.1]]

theorem foldr_max_perm {l1 l2 : List ℚ} (h : l1.Perm l2) :
    l1.foldr max 0 = l2.foldr max 0 := by
  induction h with
  | nil => rfl
  | cons x _ ih => simp only [List.foldr_cons, ih]
  | swap x y l => simp only [List.foldr_cons]; rw [max_left_comm]
  | trans _ _ ih1 ih2 => exact ih1.trans ih2

theorem aggregateAt_perm {rs1 rs2 : List Rule} (h : rs1.Perm rs2)
    (m : Term → ℚ) (v : OutVar) (x : ℚ) :
    aggregateAt rs1 m v x = aggregateAt rs2 m v x :=
  foldr_max_perm (((h.filterMap _).map _))

theorem get_recommendation_with_perm {rs1 rs2 : List Rule} (h : rs1.Perm rs2)
    (t tm w v u : ℚ) :
    get_recommendation_with rs1 t tm w v u = get_recommendation_with rs2 t tm w v u := by
  have h1 : aggregateAt rs1 (fuzzify ⟨t, tm, w, v, u⟩) OutVar.recommended_area =
      aggregateAt rs2 (fuzzify ⟨t, tm, w, v, u⟩) OutVar.recommended_area :=
    funext fun x => aggregateAt_perm h _ _ x
  have h2 : aggregateAt rs1 (fuzzify ⟨t, tm, w, v, u⟩) OutVar.waiting_time =
      aggregateAt rs2 (fuzzify ⟨t, tm, w, v, u⟩) OutVar.waiting_time :=
    funext fun x => aggregateAt_perm h _ _ x
  simp only [get_recommendation_with, h1, h2]

theorem outvar_wt_ne_ra : (OutVar.waiting_time = OutVar.recommended_area) = False :=
  eq_false (by decide)

theorem outvar_ra_ne_wt : (OutVar.recommended_area = OutVar.waiting_time) = False :=
  eq_false (by decide)

theorem fz_m1 : fuzzify ⟨10, 12, 0, 95, 1⟩ = m1 := by
  funext t
  cases t <;> norm_num [fuzzify, Term.crisp, Term.mf, MF.degree, m1]

theorem fz_m2 : fuzzify ⟨50, 24, 5, 50, 3⟩ = m2 := by
  funext t
  cases t <;> norm_num [fuzzify, Term.crisp, Term.mf, MF.degree, m2]

theorem fz_m3 : fuzzify ⟨50, 12, 5, 0, 3⟩ = m3 := by
  funext t
  cases t <;> norm_num [fuzzify, Term.crisp, Term.mf, MF.degree, m3]

theorem fz_m4 : fuzzify ⟨50, 12, 9, 0, 4⟩ = m4 := by
  funext t
  cases t <;> norm_num [fuzzify, Term.crisp, Term.mf, MF.degree, m4]

theorem contribs_m1_area : contributions rules m1 OutVar.recommended_area =
    [ (MF.tri 1 1 2, 1), (MF.tri 1 2 3, 0), (MF.tri 1 1 2, 0), (MF.tri 2 3 4, 0)
    , (MF.tri 1 2 3, 0), (MF.tri 1 1 2, 0), (MF.tri 3 4 5, 0), (MF.tri 2 3 4, 0)
    , (MF.tri 1 2 3, 0), (MF.tri 1 1 2, 0), (MF.tri 4 5 5, 0), (MF.tri 3 4 5, 0)
    , (MF.tri 2 3 4, 0), (MF.tri 1 1 2, 0), (MF.tri 1 1 2, 0), (MF.tri 1 1 2, 0)
    , (MF.tri 1 1 2, 0) ] := by
  norm_num [contributions, rules, strength, m1, OutTerm.var, OutTerm.mf,
    List.filterMap_cons, List.filterMap_nil, outvar_wt_ne_ra, outvar_ra_ne_wt]

theorem contribs_m1_wait : contributions rules m1 OutVar.waiting_time =
    [ (MF.trap 0 0 2 5, 1), (MF.trap 0 0 2 5, 0), (MF.tri 3 7 11, 0), (MF.tri 9 13 17, 0)
    , (MF.tri 15 20 25, 0), (MF.tri 3 7 11, 0), (MF.tri 3 7 11, 0), (MF.tri 9 13 17, 0)
    , (MF.tri 15 20 25, 0), (MF.trap 23 28 30 30, 0), (MF.tri 9 13 17, 0), (MF.tri 9 13 17, 0)
    , (MF.tri 15 20 25, 0), (MF.trap 23 28 30 30, 0), (MF.trap 23 28 30 30, 0)
    , (MF.trap 23 28 30 30, 0), (MF.tri 15 20 25, 0), (MF.trap 0 0 2 5, 0)
    , (MF.trap 23 28 30 30, 0) ] := by
  norm_num [contributions, rules, strength, m1, OutTerm.var, OutTerm.mf,
    List.filterMap_cons, List.filterMap_nil, outvar_wt_ne_ra, outvar_ra_ne_wt]

theorem contribs_m2_area : contributions rules m2 OutVar.recommended_area =
    [ (MF.tri 1 1 2, 0), (MF.tri 1 2 3, 0), (MF.tri 1 1 2, 0), (MF.tri 2 3 4, 0)
    , (MF.tri 1 2 3, 0), (MF.tri 1 1 2, 1), (MF.tri 3 4 5, 0), (MF.tri 2 3 4, 0)
    , (MF.tri 1 2 3, 0), (MF.tri 1 1 2, 0), (MF.tri 4 5 5, 0), (MF.tri 3 4 5, 0)
    , (MF.tri 2 3 4, 0), (MF.tri 1 1 2, 0), (MF.tri 1 1 2, 0), (MF.tri 1 1 2, 0)
    , (MF.tri 1 1 2, 1) ] := by
  norm_num [contributions, rules, strength, m2, OutTerm.var, OutTerm.mf,
    List.filterMap_cons, List.filterMap_nil, outvar_wt_ne_ra, outvar_ra_ne_wt]

theorem contribs_m2_wait : contributions rules m2 OutVar.waiting_time =
    [ (MF.trap 0 0 2 5, 0), (MF.trap 0 0 2 5, 0), (MF.tri 3 7 11, 0), (MF.tri 9 13 17, 0)
    , (MF.tri 15 20 25, 0), (MF.tri 3 7 11, 0), (MF.tri 3 7 11, 0), (MF.tri 9 13 17, 1)
    , (MF.tri 15 20 25, 0), (MF.trap 23 28 30 30, 0), (MF.tri 9 13 17, 0), (MF.tri 9 13 17, 0)
    , (MF.tri 15 20 25, 0), (MF.trap 23 28 30 30, 0), (MF.trap 23 28 30 30, 0)
    , (MF.trap 23 28 30 30, 0), (MF.tri 15 20 25, 0), (MF.trap 0 0 2 5, 1)
    , (MF.trap 23 28 30 30, 0) ] := by
  norm_num [contributions, rules, strength, m2, OutTerm.var, OutTerm.mf,
    List.filterMap_cons, List.filterMap_nil, outvar_wt_ne_ra, outvar_ra_ne_wt]

theorem contribs_m3_area : contributions rules m3 OutVar.recommended_area =
    [ (MF.tri 1 1 2, 0), (MF.tri 1 2 3, 0), (MF.tri 1 1 2, 0), (MF.tri 2 3 4, 0)
    , (MF.tri 1 2 3, 0), (MF.tri 1 1 2, 0), (MF.tri 3 4 5, 0), (MF.tri 2 3 4, 0)
    , (MF.tri 1 2 3, 0), (MF.tri 1 1 2, 0), (MF.tri 4 5 5, 0), (MF.tri 3 4 5, 1)
    , (MF.tri 2 3 4, 0), (MF.tri 1 1 2, 0), (MF.tri 1 1 2, 0), (MF.tri 1 1 2, 0)
    , (MF.tri 1 1 2, 0) ] := by
  norm_num [contributions, rules, strength, m3, OutTerm.var, OutTerm.mf,
    List.filterMap_cons, List.filterMap_nil, outvar_wt_ne_ra, outvar_ra_ne_wt]

theorem contribs_m3_wait : contributions rules m3 OutVar.waiting_time =
    [ (MF.trap 0 0 2 5, 0), (MF.trap 0 0 2 5, 0), (MF.tri 3 7 11, 0), (MF.tri 9 13 17, 0)
    , (MF.tri 15 20 25, 0), (MF.tri 3 7 11, 0), (MF.tri 3 7 11, 0), (MF.tri 9 13 17, 0)
    , (MF.tri 15 20 25, 0), (MF.trap 23 28 30 30, 1), (MF.tri 9 13 17, 0), (MF.tri 9 13 17, 0)
    , (MF.tri 15 20 25, 0), (MF.trap 23 28 30 30, 0), (MF.trap 23 28 30 30, 0)
    , (MF.trap 23 28 30 30, 0), (MF.tri 15 20 25, 0), (MF.trap 0 0 2 5, 0)
    , (MF.trap 23 28 30 30, 0) ] := by
  norm_num [contributions, rules, strength, m3, OutTerm.var, OutTerm.mf,
    List.filterMap_cons, List.filterMap_nil, outvar_wt_ne_ra, outvar_ra_ne_wt]

theorem contribs_m4_area : contributions rules m4 OutVar.recommended_area =
    [ (MF.tri 1 1 2, 0), (MF.tri 1 2 3, 0), (MF.tri 1 1 2, 0), (MF.tri 2 3 4, 0)
    , (MF.tri 1 2 3, 0), (MF.tri 1 1 2, 0), (MF.tri 3 4 5, 0), (MF.tri 2 3 4, 0)
    , (MF.tri 1 2 3, 0), (MF.tri 1 1 2, 0), (MF.tri 4 5 5, 0), (MF.tri 3 4 5, 0)
    , (MF.tri 2 3 4, 1), (MF.tri 1 1 2, 1), (MF.tri 1 1 2, 0), (MF.tri 1 1 2, 0)
    , (MF.tri 1 1 2, 0) ] := by
  norm_num [contributions, rules, strength, m4, OutTerm.var, OutTerm.mf,
    List.filterMap_cons, List.filterMap_nil, outvar_wt_ne_ra, outvar_ra_ne_wt]

theorem contribs_m4_wait : contributions rules m4 OutVar.waiting_time =
    [ (MF.trap 0 0 2 5, 0), (MF.trap 0 0 2 5, 0), (MF.tri 3 7 11, 0), (MF.tri 9 13 17, 0)
    , (MF.tri 15 20 25, 0), (MF.tri 3 7 11, 0), (MF.tri 3 7 11, 0), (MF.tri 9 13 17, 0)
    , (MF.tri 15 20 25, 0), (MF.trap 23 28 30 30, 1), (MF.tri 9 13 17, 0), (MF.tri 9 13 17, 0)
    , (MF.tri 15 20 25, 0), (MF.trap 23 28 30 30, 0), (MF.trap 23 28 30 30, 0)
    , (MF.trap 23 28 30 30, 0), (MF.tri 15 20 25, 1), (MF.trap 0 0 2 5, 0)
    , (MF.trap 23 28 30 30, 0) ] := by
  norm_num [contributions, rules, strength, m4, OutTerm.var, OutTerm.mf,
    List.filterMap_cons, List.filterMap_nil, outvar_wt_ne_ra, outvar_ra_ne_wt]

theorem agg_m1_area (x : ℚ) :
    aggregateAt rules m1 OutVar.recommended_area x = (MF.tri 1 1 2).degree x := by
  rw [aggregateAt, contribs_m1_area]
  simp only [clipAgg_one_cons, clipAgg_zero_cons, clipAgg_nil]
  exact max_eq_left (MF.degree_nonneg _ _)

theorem agg_m1_wait (x : ℚ) :
    aggregateAt rules m1 OutVar.waiting_time x = (MF.trap 0 0 2 5).degree x := by
  rw [aggregateAt, contribs_m1_wait]
  simp only [clipAgg_one_cons, clipAgg_zero_cons, clipAgg_nil]
  exact max_eq_left (MF.degree_nonneg _ _)

theorem agg_m2_area (x : ℚ) :
    aggregateAt rules m2 OutVar.recommended_area x = (MF.tri 1 1 2).degree x := by
  rw [aggregateAt, contribs_m2_area]
  simp only [clipAgg_one_cons, clipAgg_zero_cons, clipAgg_nil]
  rw [max_eq_left (MF.degree_nonneg _ _), max_self]

theorem agg_m2_wait (x : ℚ) :
    aggregateAt rules m2 OutVar.waiting_time x =
      max ((MF.tri 9 13 17).degree x) ((MF.trap 0 0 2 5).degree x) := by
  rw [aggregateAt, contribs_m2_wait]
  simp only [clipAgg_one_cons, clipAgg_zero_cons, clipAgg_nil]
  rw [max_eq_left (MF.degree_nonneg _ _)]

theorem agg_m3_area (x : ℚ) :
    aggregateAt rules m3 OutVar.recommended_area x = (MF.tri 3 4 5).degree x := by
  rw [aggregateAt, contribs_m3_area]
  simp only [clipAgg_one_cons, clipAgg_zero_cons, clipAgg_nil]
  exact max_eq_left (MF.degree_nonneg _ _)

theorem agg_m3_wait (x : ℚ) :
    aggregateAt rules m3 OutVar.waiting_time x = (MF.trap 23 28 30 30).degree x := by
  rw [aggregateAt, contribs_m3_wait]
  simp only [clipAgg_one_cons, clipAgg_zero_cons, clipAgg_nil]
  exact max_eq_left (MF.degree_nonneg _ _)

theorem agg_m4_area (x : ℚ) :
    aggregateAt rules m4 OutVar.recommended_area x =
      max ((MF.tri 2 3 4).degree x) ((MF.tri 1 1 2).degree x) := by
  rw [aggregateAt, contribs_m4_area]
  simp only [clipAgg_one_cons, clipAgg_zero_cons, clipAgg_nil]
  rw [max_eq_left (MF.degree_nonneg _ _)]

theorem agg_m4_wait (x : ℚ) :
    aggregateAt rules m4 OutVar.waiting_time x =
      max ((MF.trap 23 28 30 30).degree x) ((MF.tri 15 20 25).degree x) := by
  rw [aggregateAt, contribs_m4_wait]
  simp only [clipAgg_one_cons, clipAgg_zero_cons, clipAgg_nil]
  rw [max_eq_left (MF.degree_nonneg _ _)]

theorem cen_m1_area :
    centroid OutVar.recommended_area.universe (aggregateAt rules m1 OutVar.recommended_area) =
      some 1 := by
  rw [show aggregateAt rules m1 OutVar.recommended_area = fun x => (MF.tri 1 1 2).degree x from
    funext agg_m1_area]
  norm_num [centroid, OutVar.universe, MF.degree]

theorem cen_m1_wait :
    centroid OutVar.waiting_time.universe (aggregateAt rules m1 OutVar.waiting_time) =
      some (19/12) := by
  rw [show aggregateAt rules m1 OutVar.waiting_time = fun x => (MF.trap 0 0 2 5).degree x from
    funext agg_m1_wait]
  norm_num [centroid, OutVar.universe, MF.degree, List.range_succ]

theorem cen_m2_area :
    centroid OutVar.recommended_area.universe (aggregateAt rules m2 OutVar.recommended_area) =
      some 1 := by
  rw [show aggregateAt rules m2 OutVar.recommended_area = fun x => (MF.tri 1 1 2).degree x from
    funext agg_m2_area]
  norm_num [centroid, OutVar.universe, MF.degree]

theorem cen_m2_wait :
    centroid OutVar.waiting_time.universe (aggregateAt rules m2 OutVar.waiting_time) =
      some (175/24) := by
  rw [show aggregateAt rules m2 OutVar.waiting_time =
      fun x => max ((MF.tri 9 13 17).degree x) ((MF.trap 0 0 2 5).degree x) from
    funext agg_m2_wait]
  norm_num [centroid, OutVar.universe, MF.degree, List.range_succ]

theorem cen_m3_area :
    centroid OutVar.recommended_area.universe (aggregateAt rules m3 OutVar.recommended_area) =
      some 4 := by
  rw [show aggregateAt rules m3 OutVar.recommended_area = fun x => (MF.tri 3 4 5).degree x from
    funext agg_m3_area]
  norm_num [centroid, OutVar.universe, MF.degree]

theorem cen_m3_wait :
    centroid OutVar.waiting_time.universe (aggregateAt rules m3 OutVar.waiting_time) =
      some (139/5) := by
  rw [show aggregateAt rules m3 OutVar.waiting_time = fun x => (MF.trap 23 28 30 30).degree x from
    funext agg_m3_wait]
  norm_num [centroid, OutVar.universe, MF.degree, List.range_succ]

theorem cen_m4_area :
    centroid OutVar.recommended_area.universe (aggregateAt rules m4 OutVar.recommended_area) =
      some 2 := by
  rw [show aggregateAt rules m4 OutVar.recommended_area =
      fun x => max ((MF.tri 2 3 4).degree x) ((MF.tri 1 1 2).degree x) from
    funext agg_m4_area]
  norm_num [centroid, OutVar.universe, MF.degree]

theorem cen_m4_wait :
    centroid OutVar.waiting_time.universe (aggregateAt rules m4 OutVar.waiting_time) =
      some (1171/49) := by
  rw [show aggregateAt rules m4 OutVar.waiting_time =
      fun x => max ((MF.trap 23 28 30 30).degree x) ((MF.tri 15 20 25).degree x) from
    funext agg_m4_wait]
  norm_num [centroid, OutVar.universe, MF.degree, List.range_succ]

theorem eval_input1 : get_recommendation 10 12 0 95 1 =
    .ok ⟨1, "Area A (Closest to entrance)", 19/12, "Very Short (< 3 minutes)"⟩ := by
  norm_num [get_recommendation, get_recommendation_with, fz_m1, cen_m1_area, cen_m1_wait,
    get_area_text, get_waiting_time_text]

theorem eval_input2 : get_recommendation 50 24 5 50 3 =
    .ok ⟨1, "Area A (Closest to entrance)", 175/24, "Short (3-9 minutes)"⟩ := by
  norm_num [get_recommendation, get_recommendation_with, fz_m2, cen_m2_area, cen_m2_wait,
    get_area_text, get_waiting_time_text]

theorem eval_input3 : get_recommendation 50 12 5 0 3 =
    .ok ⟨4, "Area D", 139/5, "Very Long (>23 minutes)"⟩ := by
  norm_num [get_recommendation, get_recommendation_with, fz_m3, cen_m3_area, cen_m3_wait,
    get_area_text, get_waiting_time_text]

theorem eval_input4 : get_recommendation 50 12 9 0 4 =
    .ok ⟨2, "Area B", 1171/49, "Very Long (>23 minutes)"⟩ := by
  norm_num [get_recommendation, get_recommendation_with, fz_m4, cen_m4_area, cen_m4_wait,
    get_area_text, get_waiting_time_text]

theorem clipAgg_le_one (cl : List (MF × ℚ)) (x : ℚ) : clipAgg cl x ≤ 1 := by
  induction cl with
  | nil => rw [clipAgg_nil]; norm_num
  | cons c cl ih =>
    rw [clipAgg_cons]
    exact max_le ((min_le_left _ _).trans (MF.degree_le_one _ _)) ih

theorem clipAgg_le_of {cl : List (MF × ℚ)} {x b : ℚ} (hb : 0 ≤ b)
    (h : ∀ c ∈ cl, min (c.1.degree x) c.2 ≤ b) : clipAgg cl x ≤ b := by
  induction cl with
  | nil => rw [clipAgg_nil]; exact hb
  | cons c cl ih =>
    rw [clipAgg_cons]
    exact max_le (h c (List.mem_cons_self _ _)) (ih fun d hd => h d (List.mem_cons_of_mem _ hd))

theorem le_clipAgg_of_mem {cl : List (MF × ℚ)} {c : MF × ℚ} (hc : c ∈ cl) (x : ℚ) :
    min (c.1.degree x) c.2 ≤ clipAgg cl x := by
  induction cl with
  | nil => cases hc
  | cons d cl ih =>
    rw [clipAgg_cons]
    rcases List.mem_cons.mp hc with rfl | hmem
    · exact le_max_left _ _
    · exact (ih hmem).trans (le_max_right _ _)

theorem fz_mC8 (v : ℚ) : fuzzify ⟨50, 12, 9, v, 4⟩ = mC8 v := by
  funext t
  cases t <;> norm_num [fuzzify, Term.crisp, Term.mf, MF.degree, mC8]

theorem vacancy_verylow_zero {v : ℚ} (h20 : (20 : ℚ) ≤ v) :
    (MF.trap 0 0 10 20).degree v = 0 := by
  simp only [MF.degree]
  rw [if_neg (not_lt.mpr (by push_cast; linarith)), if_neg (not_lt.mpr (by push_cast; linarith)),
    if_neg (not_le.mpr (by push_cast; linarith)), if_neg (not_lt.mpr (by push_cast; linarith))]

theorem contribs_mC8_area (v : ℚ) :
    contributions rules (mC8 v) OutVar.recommended_area = areaContribsC8 v := by
  norm_num [contributions, rules, strength, mC8, OutTerm.var, OutTerm.mf, areaContribsC8,
    List.filterMap_cons, List.filterMap_nil, outvar_wt_ne_ra, outvar_ra_ne_wt]

theorem contribs_mC8_wait (v : ℚ) :
    contributions rules (mC8 v) OutVar.waiting_time = waitContribsC8 v := by
  norm_num [contributions, rules, strength, mC8, OutTerm.var, OutTerm.mf, waitContribsC8,
    List.filterMap_cons, List.filterMap_nil, outvar_wt_ne_ra, outvar_ra_ne_wt]

theorem agg_mC8_area_pt1 (v : ℚ) :
    aggregateAt rules (mC8 v) OutVar.recommended_area 1 = 1 := by
  rw [aggregateAt, contribs_mC8_area]
  refine le_antisymm (clipAgg_le_one _ _) ?_
  have hmem : ((MF.tri 1 1 2, 1) : MF × ℚ) ∈ areaContribsC8 v := by simp [areaContribsC8]
  calc (1 : ℚ) = min ((MF.tri 1 1 2).degree 1) (1 : ℚ) := by norm_num [MF.degree]
    _ ≤ clipAgg (areaContribsC8 v) 1 := le_clipAgg_of_mem hmem 1

theorem agg_mC8_area_pt2 (v : ℚ) :
    aggregateAt rules (mC8 v) OutVar.recommended_area 2 = 0 := by
  rw [aggregateAt, contribs_mC8_area]
  have hz0 : (MF.tri 1 1 2).degree 2 = 0 := by norm_num [MF.degree]
  have hz1 : (MF.tri 2 3 4).degree 2 = 0 := by norm_num [MF.degree]
  have hz2 : (MF.tri 3 4 5).degree 2 = 0 := by norm_num [MF.degree]
  have hz3 : (MF.tri 4 5 5).degree 2 = 0 := by norm_num [MF.degree]
  refine le_antisymm (clipAgg_le_of le_rfl ?_) (clipAgg_nonneg _ _)
  intro c hc
  simp only [areaContribsC8, List.mem_cons, List.not_mem_nil, or_false] at hc
  rcases hc with rfl | rfl | rfl | rfl | rfl | rfl | rfl | rfl | rfl | rfl | rfl | rfl | rfl |
    rfl | rfl | rfl | rfl <;>
    first
      | exact (min_le_left _ _).trans (le_of_eq hz0)
      | exact (min_le_left _ _).trans (le_of_eq hz1)
      | exact (min_le_left _ _).trans (le_of_eq hz2)
      | exact (min_le_left _ _).trans (le_of_eq hz3)
      | exact min_le_right _ _
      | exact (min_le_right _ _).trans (min_le_right _ _)

set_option maxHeartbeats 2000000 in
theorem agg_mC8_area_pt3 (v : ℚ) :
    aggregateAt rules (mC8 v) OutVar.recommended_area 3 = (MF.trap 0 0 10 20).degree v := by
  rw [aggregateAt, contribs_mC8_area]
  obtain ⟨s, hsv, hs0, hs1⟩ : ∃ s, (MF.trap 0 0 10 20).degree v = s ∧ 0 ≤ s ∧ s ≤ 1 :=
    ⟨_, rfl, MF.degree_nonneg _ _, MF.degree_le_one _ _⟩
  rw [hsv]
  have hz0 : (MF.tri 1 1 2).degree 3 = 0 := by norm_num [MF.degree]
  have hz1 : (MF.tri 1 2 3).degree 3 = 0 := by norm_num [MF.degree]
  have hz2 : (MF.tri 3 4 5).degree 3 = 0 := by norm_num [MF.degree]
  have hz3 : (MF.tri 4 5 5).degree 3 = 0 := by norm_num [MF.degree]
  refine le_antisymm (clipAgg_le_of hs0 ?_) ?_
  · intro c hc
    simp only [areaContribsC8, List.mem_cons, List.not_mem_nil, or_false] at hc
    rcases hc with rfl | rfl | rfl | rfl | rfl | rfl | rfl | rfl | rfl | rfl | rfl | rfl | rfl |
      rfl | rfl | rfl | rfl
    · exact ((min_le_left _ _).trans (le_of_eq hz0)).trans hs0
    · exact ((min_le_left _ _).trans (le_of_eq hz1)).trans hs0
    · exact ((min_le_left _ _).trans (le_of_eq hz0)).trans hs0
    · exact ((min_le_right _ _).trans (min_le_right _ _)).trans hs0
    · exact ((min_le_left _ _).trans (le_of_eq hz1)).trans hs0
    · exact ((min_le_left _ _).trans (le_of_eq hz0)).trans hs0
    · exact ((min_le_left _ _).trans (le_of_eq hz2)).trans hs0
    · exact ((min_le_right _ _).trans (min_le_right _ _)).trans hs0
    · exact ((min_le_left _ _).trans (le_of_eq hz1)).trans hs0
    · exact ((min_le_left _ _).trans (le_of_eq hz0)).trans hs0
    · exact ((min_le_left _ _).trans (le_of_eq hz3)).trans hs0
    · exact ((min_le_left _ _).trans (le_of_eq hz2)).trans hs0
    · exact (min_le_right _ _).trans ((min_le_left _ _).trans (le_of_eq hsv))
    · exact ((min_le_left _ _).trans (le_of_eq hz0)).trans hs0
    · exact ((min_le_left _ _).trans (le_of_eq hz0)).trans hs0
    · exact ((min_le_left _ _).trans (le_of_eq hz0)).trans hs0
    · exact ((min_le_left _ _).trans (le_of_eq hz0)).trans hs0
  · have hmem : ((MF.tri 2 3 4, min ((MF.trap 0 0 10 20).degree v) 1) : MF × ℚ) ∈
        areaContribsC8 v := by
      simp [areaContribsC8]
    calc s = min ((MF.tri 2 3 4).degree 3) (min ((MF.trap 0 0 10 20).degree v) 1) := by
          rw [hsv, show (MF.tri 2 3 4).degree 3 = (1 : ℚ) from by norm_num [MF.degree],
            min_eq_left hs1, min_eq_right hs1]
      _ ≤ clipAgg (areaContribsC8 v) 3 := le_clipAgg_of_mem hmem 3

theorem agg_mC8_area_pt4 (v : ℚ) :
    aggregateAt rules (mC8 v) OutVar.recommended_area 4 = 0 := by
  rw [aggregateAt, contribs_mC8_area]
  have hz0 : (MF.tri 1 1 2).degree 4 = 0 := by norm_num [MF.degree]
  have hz1 : (MF.tri 1 2 3).degree 4 = 0 := by norm_num [MF.degree]
  have hz2 : (MF.tri 2 3 4).degree 4 = 0 := by norm_num [MF.degree]
  have hz3 : (MF.tri 4 5 5).degree 4 = 0 := by norm_num [MF.degree]
  refine le_antisymm (clipAgg_le_of le_rfl ?_) (clipAgg_nonneg _ _)
  intro c hc
  simp only [areaContribsC8, List.mem_cons, List.not_mem_nil, or_false] at hc
  rcases hc with rfl | rfl | rfl | rfl | rfl | rfl | rfl | rfl | rfl | rfl | rfl | rfl | rfl |
    rfl | rfl | rfl | rfl <;>
    first
      | exact (min_le_left _ _).trans (le_of_eq hz0)
      | exact (min_le_left _ _).trans (le_of_eq hz1)
      | exact (min_le_left _ _).trans (le_of_eq hz2)
      | exact (min_le_left _ _).trans (le_of_eq hz3)
      | exact min_le_right _ _
      | exact (min_le_right _ _).trans (min_le_right _ _)

theorem agg_mC8_area_pt5 (v : ℚ) :
    aggregateAt rules (mC8 v) OutVar.recommended_area 5 = 0 := by
  rw [aggregateAt, contribs_mC8_area]
  have hz0 : (MF.tri 1 1 2).degree 5 = 0 := by norm_num [MF.degree]
  have hz1 : (MF.tri 1 2 3).degree 5 = 0 := by norm_num [MF.degree]
  have hz2 : (MF.tri 2 3 4).degree 5 = 0 := by norm_num [MF.degree]
  have hz3 : (MF.tri 3 4 5).degree 5 = 0 := by norm_num [MF.degree]
  refine le_antisymm (clipAgg_le_of le_rfl ?_) (clipAgg_nonneg _ _)
  intro c hc
  simp only [areaContribsC8, List.mem_cons, List.not_mem_nil, or_false] at hc
  rcases hc with rfl | rfl | rfl | rfl | rfl | rfl | rfl | rfl | rfl | rfl | rfl | rfl | rfl |
    rfl | rfl | rfl | rfl <;>
    first
      | exact (min_le_left _ _).trans (le_of_eq hz0)
      | exact (min_le_left _ _).trans (le_of_eq hz1)
      | exact (min_le_left _ _).trans (le_of_eq hz2)
      | exact (min_le_left _ _).trans (le_of_eq hz3)
      | exact min_le_right _ _
      | exact (min_le_right _ _).trans (min_le_right _ _)

theorem cen_mC8_area_general (v : ℚ) :
    centroid OutVar.recommended_area.universe
      (aggregateAt rules (mC8 v) OutVar.recommended_area) =
    some ((1 + 3 * (MF.trap 0 0 10 20).degree v) / (1 + (MF.trap 0 0 10 20).degree v)) := by
  have hs0 := MF.degree_nonneg (MF.trap 0 0 10 20) v
  have p1 := agg_mC8_area_pt1 v
  have p2 := agg_mC8_area_pt2 v
  have p3 := agg_mC8_area_pt3 v
  have p4 := agg_mC8_area_pt4 v
  have p5 := agg_mC8_area_pt5 v
  have hden : (OutVar.recommended_area.universe.map
      (aggregateAt rules (mC8 v) OutVar.recommended_area)).sum =
      1 + (MF.trap 0 0 10 20).degree v := by
    simp only [OutVar.universe, List.map_cons, List.map_nil, p1, p2, p3, p4, p5,
      List.sum_cons, List.sum_nil]
    ring
  have hmom : (OutVar.recommended_area.universe.map fun x =>
      x * aggregateAt rules (mC8 v) OutVar.recommended_area x).sum =
      1 + 3 * (MF.trap 0 0 10 20).degree v := by
    simp only [OutVar.universe, List.map_cons, List.map_nil, p1, p2, p3, p4, p5,
      List.sum_cons, List.sum_nil]
    ring
  rw [centroid, if_neg (by rw [hden]; intro h; linarith), hmom, hden]

theorem verylow_lt_third {v : ℚ} (h : 50/3 < v) : (MF.trap 0 0 10 20).degree v < 1/3 := by
  rcases lt_or_le v 20 with hv | hv
  · rw [MF.trap_deg_fall (by norm_num) (by norm_num) (by norm_num)
      (by push_cast; linarith) (by push_cast; linarith)]
    push_cast
    rw [div_lt_iff (by norm_num)]
    linarith
  · rw [vacancy_verylow_zero hv]
    norm_num

theorem verylow_ge_third {v : ℚ} (h0 : 0 ≤ v) (h : v ≤ 50/3) :
    1/3 ≤ (MF.trap 0 0 10 20).degree v := by
  rcases le_or_lt v 10 with hv | hv
  · rw [MF.trap_deg_core (by norm_num) (by push_cast; linarith) (by push_cast; linarith)]
    norm_num
  · rw [MF.trap_deg_fall (by norm_num) (by norm_num) (by norm_num)
      (by push_cast; linarith) (by push_cast; linarith)]
    push_cast
    rw [le_div_iff (by norm_num)]
    linarith

theorem cen_mC8_wait_exists (v : ℚ) :
    ∃ wv, centroid OutVar.waiting_time.universe
      (aggregateAt rules (mC8 v) OutVar.waiting_time) = some wv := by
  have hptge : (1 : ℚ) ≤ aggregateAt rules (mC8 v) OutVar.waiting_time 20 := by
    rw [aggregateAt, contribs_mC8_wait]
    have hmem : ((MF.tri 15 20 25, 1) : MF × ℚ) ∈ waitContribsC8 v := by simp [waitContribsC8]
    calc (1 : ℚ) = min ((MF.tri 15 20 25).degree 20) (1 : ℚ) := by norm_num [MF.degree]
      _ ≤ clipAgg (waitContribsC8 v) 20 := le_clipAgg_of_mem hmem 20
  have h20mem : (20 : ℚ) ∈ OutVar.waiting_time.universe := by
    rw [show OutVar.waiting_time.universe = (List.range 31).map (fun n => (n : ℚ)) from rfl,
      List.mem_map]
    exact ⟨20, by decide, by norm_num⟩
  have hmemmap : aggregateAt rules (mC8 v) OutVar.waiting_time 20 ∈
      OutVar.waiting_time.universe.map (aggregateAt rules (mC8 v) OutVar.waiting_time) :=
    List.mem_map.mpr ⟨20, h20mem, rfl⟩
  have hnonneg : ∀ y ∈ OutVar.waiting_time.universe.map
      (aggregateAt rules (mC8 v) OutVar.waiting_time), 0 ≤ y := by
    intro y hy
    obtain ⟨x, -, rfl⟩ := List.mem_map.mp hy
    exact clipAgg_nonneg _ _
  have hsum : (OutVar.waiting_time.universe.map
      (aggregateAt rules (mC8 v) OutVar.waiting_time)).sum ≠ 0 := by
    have h1 : (1 : ℚ) ≤ (OutVar.waiting_time.universe.map
        (aggregateAt rules (mC8 v) OutVar.waiting_time)).sum :=
      hptge.trans (List.single_le_sum hnonneg _ hmemmap)
    exact ne_of_gt (by linarith)
  exact ⟨_, by rw [centroid, if_neg hsum]⟩

/-- C1: for every fuzzified input mapping, the antecedent evaluation
satisfies the Mamdani algebra: an `And` node's strength is the minimum of
its children's strengths, an `Or` node's strength is the maximum, and a
`Not` node's strength is one minus its child's strength — for all
antecedent expressions, in particular every one built from the engine's
rule set. -/
theorem C1_antecedent_mamdani_algebra :
    ∀ m : Term → ℚ,
      (∀ l r : Expr, strength m (.and l r) = min (strength m l) (strength m r)) ∧
      (∀ l r : Expr, strength m (.or l r) = max (strength m l) (strength m r)) ∧
      (∀ e : Expr, strength m (.not e) = 1 - strength m e) :=
  fun _ => ⟨fun _ _ => rfl, fun _ _ => rfl, fun _ => rfl⟩

/-- C3: on either output variable's sampled domain, whenever the combined
fuzzy set has nonzero total membership the defuzzified value is exactly
the discrete weighted average `Σ(x_i * μ(x_i)) / Σ(μ(x_i))`. -/
theorem C3_centroid_weighted_average (v : OutVar) (μ : ℚ → ℚ)
    (h : ((v.universe).map μ).sum ≠ 0) :
    centroid v.universe μ =
      some (((v.universe).map fun x => x * μ x).sum / ((v.universe).map μ).sum) := by
  rw [centroid, if_neg h]

/-- C3 witness: the constant-one fuzzy set over the area domain has
nonzero mass, and its centroid is the discrete weighted average. -/
theorem C3_centroid_weighted_average_witness :
    (((OutVar.recommended_area.universe).map fun _ => (1 : ℚ)).sum ≠ 0) ∧
    centroid OutVar.recommended_area.universe (fun _ => (1 : ℚ)) =
      some (((OutVar.recommended_area.universe).map fun x => x * (1 : ℚ)).sum /
        ((OutVar.recommended_area.universe).map fun _ => (1 : ℚ)).sum) := by
  have h : ((OutVar.recommended_area.universe).map fun _ => (1 : ℚ)).sum ≠ 0 := by
    norm_num [OutVar.universe]
  exact ⟨h, C3_centroid_weighted_average OutVar.recommended_area (fun _ => (1 : ℚ)) h⟩

/-- C4: every membership function the engine defines takes values in
`[0,1]` everywhere, is zero outside its support, equals one on its peak
or plateau, and is monotone non-decreasing on its rising ramp and
non-increasing on its falling ramp. -/
theorem C4_engine_mf_shape :
    ∀ mf ∈ engineMFs,
      (∀ x : ℚ, 0 ≤ mf.degree x ∧ mf.degree x ≤ 1) ∧
      (∀ x : ℚ, (x < (mf.support_lo : ℚ) ∨ (mf.support_hi : ℚ) < x) → mf.degree x = 0) ∧
      (∀ x : ℚ, (mf.core_lo : ℚ) ≤ x → x ≤ (mf.core_hi : ℚ) → mf.degree x = 1) ∧
      (∀ x y : ℚ, (mf.support_lo : ℚ) ≤ x → x ≤ y → y ≤ (mf.core_lo : ℚ) →
        mf.degree x ≤ mf.degree y) ∧
      (∀ x y : ℚ, (mf.core_hi : ℚ) ≤ x → x ≤ y → y ≤ (mf.support_hi : ℚ) →
        mf.degree y ≤ mf.degree x) := by
  intro mf hmf
  have hs : mf.Sorted := by
    have hall : ∀ m ∈ engineMFs, MF.Sorted m := by decide
    exact hall mf hmf
  obtain ⟨h0, h1, h2, h3⟩ := MF.props mf hs
  exact ⟨fun x => ⟨MF.degree_nonneg mf x, MF.degree_le_one mf x⟩, h0, h1, h2, h3⟩

/-- C4 witness: the traffic-density Medium triangle `tri 30 50 70` is one
of the engine's membership functions; at sample points it is bounded,
zero outside support, one at the peak and monotone on the rising ramp. -/
theorem C4_engine_mf_shape_witness :
    (MF.tri 30 50 70 ∈ engineMFs) ∧
    (0 ≤ (MF.tri 30 50 70).degree 35 ∧ (MF.tri 30 50 70).degree 35 ≤ 1) ∧
    (MF.tri 30 50 70).degree 80 = 0 ∧
    (MF.tri 30 50 70).degree 50 = 1 ∧
    (MF.tri 30 50 70).degree 35 ≤ (MF.tri 30 50 70).degree 45 := by
  have hmem : MF.tri 30 50 70 ∈ engineMFs := by decide
  have h := C4_engine_mf_shape (MF.tri 30 50 70) hmem
  refine ⟨hmem, h.1 35, ?_, ?_, ?_⟩
  · exact h.2.1 80 (by norm_num [MF.support_lo, MF.support_hi])
  · exact h.2.2.1 50 (by norm_num [MF.core_lo]) (by norm_num [MF.core_hi])
  · exact h.2.2.2.1 35 45 (by norm_num [MF.support_lo]) (by norm_num)
      (by norm_num [MF.core_lo])

/-- C9: the numeric-to-label mappings follow the fixed threshold tables:
area `<1.5 → A, <2.5 → B, <3.5 → C, <4.5 → D, else E`; waiting time
`<3 → Very Short, <9 → Short, <15 → Medium, <23 → Long, else Very Long`. -/
theorem C9_label_thresholds (x : ℚ) :
    ((x < 3/2 → get_area_text x = "Area A (Closest to entrance)") ∧
     (3/2 ≤ x → x < 5/2 → get_area_text x = "Area B") ∧
     (5/2 ≤ x → x < 7/2 → get_area_text x = "Area C") ∧
     (7/2 ≤ x → x < 9/2 → get_area_text x = "Area D") ∧
     (9/2 ≤ x → get_area_text x = "Area E (Farthest from entrance)")) ∧
    ((x < 3 → get_waiting_time_text x = "Very Short (< 3 minutes)") ∧
     (3 ≤ x → x < 9 → get_waiting_time_text x = "Short (3-9 minutes)") ∧
     (9 ≤ x → x < 15 → get_waiting_time_text x = "Medium (9-15 minutes)") ∧
     (15 ≤ x → x < 23 → get_waiting_time_text x = "Long (15-23 minutes)") ∧
     (23 ≤ x → get_waiting_time_text x = "Very Long (>23 minutes)")) := by
  constructor
  · refine ⟨fun h1 => ?_, fun h1 h2 => ?_, fun h1 h2 => ?_, fun h1 h2 => ?_, fun h1 => ?_⟩
    · rw [get_area_text, if_pos h1]
    · rw [get_area_text, if_neg (not_lt.mpr h1), if_pos h2]
    · rw [get_area_text, if_neg (not_lt.mpr (by linarith)), if_neg (not_lt.mpr h1), if_pos h2]
    · rw [get_area_text, if_neg (not_lt.mpr (by linarith)), if_neg (not_lt.mpr (by linarith)),
        if_neg (not_lt.mpr h1), if_pos h2]
    · rw [get_area_text, if_neg (not_lt.mpr (by linarith)), if_neg (not_lt.mpr (by linarith)),
        if_neg (not_lt.mpr (by linarith)), if_neg (not_lt.mpr h1)]
  · refine ⟨fun h1 => ?_, fun h1 h2 => ?_, fun h1 h2 => ?_, fun h1 h2 => ?_, fun h1 => ?_⟩
    · rw [get_waiting_time_text, if_pos h1]
    · rw [get_waiting_time_text, if_neg (not_lt.mpr h1), if_pos h2]
    · rw [get_waiting_time_text, if_neg (not_lt.mpr (by linarith)), if_neg (not_lt.mpr h1),
        if_pos h2]
    · rw [get_waiting_time_text, if_neg (not_lt.mpr (by linarith)),
        if_neg (not_lt.mpr (by linarith)), if_neg (not_lt.mpr h1), if_pos h2]
    · rw [get_waiting_time_text, if_neg (not_lt.mpr (by linarith)),
        if_neg (not_lt.mpr (by linarith)), if_neg (not_lt.mpr (by linarith)),
        if_neg (not_lt.mpr h1)]

/-- C9 witness: the threshold tables evaluated at concrete crisp values. -/
theorem C9_label_thresholds_witness :
    ((1 : ℚ) < 3/2 ∧ get_area_text 1 = "Area A (Closest to entrance)") ∧
    ((3/2 : ℚ) ≤ 2 ∧ (2 : ℚ) < 5/2 ∧ get_area_text 2 = "Area B") ∧
    ((9 : ℚ) ≤ 10 ∧ (10 : ℚ) < 15 ∧ get_waiting_time_text 10 = "Medium (9-15 minutes)") ∧
    ((23 : ℚ) ≤ 30 ∧ get_waiting_time_text 30 = "Very Long (>23 minutes)") := by
  refine ⟨⟨by norm_num, (C9_label_thresholds 1).1.1 (by norm_num)⟩,
    ⟨by norm_num, by norm_num, (C9_label_thresholds 2).1.2.1 (by norm_num) (by norm_num)⟩,
    ⟨by norm_num, by norm_num, (C9_label_thresholds 10).2.2.2.1 (by norm_num) (by norm_num)⟩,
    ⟨by norm_num, (C9_label_thresholds 30).2.2.2.2.2 (by norm_num)⟩⟩

/-- C2: for every valid input tuple and every permutation of the engine's
rule list, evaluating the rules in the permuted order yields the same
combined output fuzzy set for each output variable and the same final
result (hence the same crisp `recommended_area` and `waiting_time`). -/
theorem C2_rule_order_invariance (rs : List Rule) (hperm : rules.Perm rs)
    (t tm w v u : ℚ)
    (ht : 0 ≤ t ∧ t ≤ 100) (htm : 0 ≤ tm ∧ tm ≤ 24) (hw : 0 ≤ w ∧ w ≤ 10)
    (hv : 0 ≤ v ∧ v ≤ 100) (hu : 1 ≤ u ∧ u ≤ 5) :
    (∀ ov x, aggregateAt rs (fuzzify ⟨t, tm, w, v, u⟩) ov x =
      aggregateAt rules (fuzzify ⟨t, tm, w, v, u⟩) ov x) ∧
    get_recommendation_with rs t tm w v u = get_recommendation t tm w v u :=
  ⟨fun _ x => aggregateAt_perm hperm.symm _ _ x,
    get_recommendation_with_perm hperm.symm t tm w v u⟩

/-- C2 witness: reversing the rule list leaves the combined waiting-time
set at a sample point and the whole recommendation unchanged on a valid
input tuple. -/
theorem C2_rule_order_invariance_witness :
    rules.Perm rules.reverse ∧
    ((0 : ℚ) ≤ 10 ∧ (10 : ℚ) ≤ 100) ∧ ((0 : ℚ) ≤ 12 ∧ (12 : ℚ) ≤ 24) ∧
    ((0 : ℚ) ≤ 0 ∧ (0 : ℚ) ≤ 10) ∧ ((0 : ℚ) ≤ 95 ∧ (95 : ℚ) ≤ 100) ∧
    ((1 : ℚ) ≤ 1 ∧ (1 : ℚ) ≤ 5) ∧
    aggregateAt rules.reverse (fuzzify ⟨10, 12, 0, 95, 1⟩) OutVar.waiting_time 3 =
      aggregateAt rules (fuzzify ⟨10, 12, 0, 95, 1⟩) OutVar.waiting_time 3 ∧
    get_recommendation_with rules.reverse 10 12 0 95 1 = get_recommendation 10 12 0 95 1 := by
  have hperm : rules.Perm rules.reverse := (List.reverse_perm rules).symm
  have h := C2_rule_order_invariance rules.reverse hperm 10 12 0 95 1
    (by norm_num) (by norm_num) (by norm_num) (by norm_num) (by norm_num)
  exact ⟨hperm, ⟨by norm_num, by norm_num⟩, ⟨by norm_num, by norm_num⟩,
    ⟨le_refl 0, by norm_num⟩, ⟨by norm_num, by norm_num⟩, ⟨le_refl 1, by norm_num⟩,
    h.1 OutVar.waiting_time 3, h.2⟩

theorem centroid_eq_some {dom : List ℚ} {μ : ℚ → ℚ} {a : ℚ}
    (h : centroid dom μ = some a) :
    (dom.map μ).sum ≠ 0 ∧ a = (dom.map fun x => x * μ x).sum / (dom.map μ).sum := by
  rw [centroid] at h
  split_ifs at h with h0
  exact ⟨h0, (Option.some_injective ℚ h).symm⟩

/-- C5: an input strictly outside its variable's closed domain is
rejected with that variable's error result — for each of the five
variables (traffic density and vacancy rate outside `[0,100]`, time of
day outside `[0,24]`, weather condition outside `[0,10]`, user type
outside `[1,5]`), in particular `vacancy_rate = 150` — while inputs
exactly at a domain edge (`time_of_day = 24`, `vacancy_rate = 0`) are
accepted and processed to a successful recommendation. -/
theorem C5_domain_validation :
    (∀ t : ℚ, t < 0 ∨ 100 < t → ∀ tm w v u : ℚ,
      get_recommendation t tm w v u = .error "Traffic density must be between 0 and 100%") ∧
    (∀ tm : ℚ, tm < 0 ∨ 24 < tm →
      get_recommendation 50 tm 5 50 3 = .error "Time of day must be between 0 and 24 hours") ∧
    (∀ w : ℚ, w < 0 ∨ 10 < w →
      get_recommendation 50 12 w 50 3 = .error "Weather condition must be between 0 and 10") ∧
    (∀ v : ℚ, v < 0 ∨ 100 < v →
      get_recommendation 50 12 5 v 3 = .error "Vacancy rate must be between 0 and 100%") ∧
    (∀ u : ℚ, u < 1 ∨ 5 < u →
      get_recommendation 50 12 5 50 u = .error "User type must be between 1 and 5") ∧
    get_recommendation 50 12 5 150 3 = .error "Vacancy rate must be between 0 and 100%" ∧
    get_recommendation 50 24 5 50 3 =
      .ok ⟨1, "Area A (Closest to entrance)", 175/24, "Short (3-9 minutes)"⟩ ∧
    get_recommendation 50 12 5 0 3 =
      .ok ⟨4, "Area D", 139/5, "Very Long (>23 minutes)"⟩ := by
  have h1 : ∀ t : ℚ, t < 0 ∨ 100 < t → ∀ tm w v u : ℚ,
      get_recommendation t tm w v u = .error "Traffic density must be between 0 and 100%" := by
    intro t ht tm w v u
    rw [get_recommendation, get_recommendation_with, if_pos]
    rcases ht with h | h
    · exact fun hc => absurd hc.1 (not_le.mpr h)
    · exact fun hc => absurd hc.2 (not_le.mpr h)
  have h2 : ∀ tm : ℚ, tm < 0 ∨ 24 < tm →
      get_recommendation 50 tm 5 50 3 = .error "Time of day must be between 0 and 24 hours" := by
    intro tm htm
    rw [get_recommendation, get_recommendation_with, if_neg (by norm_num), if_pos]
    rcases htm with h | h
    · exact fun hc => absurd hc.1 (not_le.mpr h)
    · exact fun hc => absurd hc.2 (not_le.mpr h)
  have h3 : ∀ w : ℚ, w < 0 ∨ 10 < w →
      get_recommendation 50 12 w 50 3 = .error "Weather condition must be between 0 and 10" := by
    intro w hw
    rw [get_recommendation, get_recommendation_with, if_neg (by norm_num),
      if_neg (by norm_num), if_pos]
    rcases hw with h | h
    · exact fun hc => absurd hc.1 (not_le.mpr h)
    · exact fun hc => absurd hc.2 (not_le.mpr h)
  have h4 : ∀ v : ℚ, v < 0 ∨ 100 < v →
      get_recommendation 50 12 5 v 3 = .error "Vacancy rate must be between 0 and 100%" := by
    intro v hv
    rw [get_recommendation, get_recommendation_with, if_neg (by norm_num),
      if_neg (by norm_num), if_neg (by norm_num), if_pos]
    rcases hv with h | h
    · exact fun hc => absurd hc.1 (not_le.mpr h)
    · exact fun hc => absurd hc.2 (not_le.mpr h)
  have h5 : ∀ u : ℚ, u < 1 ∨ 5 < u →
      get_recommendation 50 12 5 50 u = .error "User type must be between 1 and 5" := by
    intro u hu
    rw [get_recommendation, get_recommendation_with, if_neg (by norm_num),
      if_neg (by norm_num), if_neg (by norm_num), if_neg (by norm_num), if_pos]
    rcases hu with h | h
    · exact fun hc => absurd hc.1 (not_le.mpr h)
    · exact fun hc => absurd hc.2 (not_le.mpr h)
  exact ⟨h1, h2, h3, h4, h5, h4 150 (Or.inr (by norm_num)), eval_input2, eval_input3⟩

/-- C5 witness: out-of-range instances for each of the five variables are
rejected with the matching error string. -/
theorem C5_domain_validation_witness :
    ((150 : ℚ) < 0 ∨ (100 : ℚ) < 150) ∧ ((25 : ℚ) < 0 ∨ (24 : ℚ) < 25) ∧
    ((11 : ℚ) < 0 ∨ (10 : ℚ) < 11) ∧ ((6 : ℚ) < 1 ∨ (5 : ℚ) < 6) ∧
    get_recommendation 150 12 5 50 3 = .error "Traffic density must be between 0 and 100%" ∧
    get_recommendation 50 25 5 50 3 = .error "Time of day must be between 0 and 24 hours" ∧
    get_recommendation 50 12 11 50 3 = .error "Weather condition must be between 0 and 10" ∧
    get_recommendation 50 12 5 150 3 = .error "Vacancy rate must be between 0 and 100%" ∧
    get_recommendation 50 12 5 50 6 = .error "User type must be between 1 and 5" :=
  ⟨Or.inr (by norm_num), Or.inr (by norm_num), Or.inr (by norm_num), Or.inr (by norm_num),
    C5_domain_validation.1 150 (Or.inr (by norm_num)) 12 5 50 3,
    C5_domain_validation.2.1 25 (Or.inr (by norm_num)),
    C5_domain_validation.2.2.1 11 (Or.inr (by norm_num)),
    C5_domain_validation.2.2.2.1 150 (Or.inr (by norm_num)),
    C5_domain_validation.2.2.2.2.1 6 (Or.inr (by norm_num))⟩

/-- C6: the engine never propagates an exception: every call returns a
structured result (ok or error), and a successful result is only ever
produced with nonzero defuzzification denominators for both outputs, the
crisp values being exactly the corresponding weighted averages — never a
division by zero or a fabricated default. -/
theorem C6_structured_results (t tm w v u : ℚ) :
    ((∃ r, get_recommendation t tm w v u = .ok r) ∨
     (∃ msg, get_recommendation t tm w v u = .error msg)) ∧
    (∀ out, get_recommendation t tm w v u = .ok out →
      ((OutVar.recommended_area.universe.map
          (aggregateAt rules (fuzzify ⟨t, tm, w, v, u⟩) OutVar.recommended_area)).sum ≠ 0 ∧
       (OutVar.waiting_time.universe.map
          (aggregateAt rules (fuzzify ⟨t, tm, w, v, u⟩) OutVar.waiting_time)).sum ≠ 0 ∧
       out.recommended_area_value =
         (OutVar.recommended_area.universe.map fun x =>
            x * aggregateAt rules (fuzzify ⟨t, tm, w, v, u⟩) OutVar.recommended_area x).sum /
         (OutVar.recommended_area.universe.map
            (aggregateAt rules (fuzzify ⟨t, tm, w, v, u⟩) OutVar.recommended_area)).sum ∧
       out.waiting_time_value =
         (OutVar.waiting_time.universe.map fun x =>
            x * aggregateAt rules (fuzzify ⟨t, tm, w, v, u⟩) OutVar.waiting_time x).sum /
         (OutVar.waiting_time.universe.map
            (aggregateAt rules (fuzzify ⟨t, tm, w, v, u⟩) OutVar.waiting_time)).sum)) := by
  constructor
  · cases hres : get_recommendation t tm w v u with
    | ok r => exact Or.inl ⟨r, rfl⟩
    | error e => exact Or.inr ⟨e, rfl⟩
  · intro out h
    simp only [get_recommendation, get_recommendation_with] at h
    split_ifs at h
    all_goals try exact Except.noConfusion h
    cases hc1 : centroid OutVar.recommended_area.universe
        (aggregateAt rules (fuzzify ⟨t, tm, w, v, u⟩) OutVar.recommended_area) with
    | none => rw [hc1] at h; exact Except.noConfusion h
    | some a =>
      cases hc2 : centroid OutVar.waiting_time.universe
          (aggregateAt rules (fuzzify ⟨t, tm, w, v, u⟩) OutVar.waiting_time) with
      | none => rw [hc1, hc2] at h; exact Except.noConfusion h
      | some wv =>
        rw [hc1, hc2] at h
        obtain ⟨hd1, ha⟩ := centroid_eq_some hc1
        obtain ⟨hd2, hw⟩ := centroid_eq_some hc2
        have h' : Except.ok (⟨a, get_area_text a, wv, get_waiting_time_text wv⟩ :
            Recommendation) = Except.ok out := h
        injection h' with h''
        rw [← h'']
        exact ⟨hd1, hd2, ha, hw⟩

/-- C6 witness: on the tuple `(10, 12, 0, 95, 1)` the call succeeds, and
the theorem yields nonzero denominators and the weighted-average values
for that output. -/
theorem C6_structured_results_witness :
    (OutVar.recommended_area.universe.map
        (aggregateAt rules (fuzzify ⟨10, 12, 0, 95, 1⟩) OutVar.recommended_area)).sum ≠ 0 ∧
    (OutVar.waiting_time.universe.map
        (aggregateAt rules (fuzzify ⟨10, 12, 0, 95, 1⟩) OutVar.waiting_time)).sum ≠ 0 ∧
    (1 : ℚ) =
      (OutVar.recommended_area.universe.map fun x =>
          x * aggregateAt rules (fuzzify ⟨10, 12, 0, 95, 1⟩) OutVar.recommended_area x).sum /
      (OutVar.recommended_area.universe.map
          (aggregateAt rules (fuzzify ⟨10, 12, 0, 95, 1⟩) OutVar.recommended_area)).sum ∧
    (19/12 : ℚ) =
      (OutVar.waiting_time.universe.map fun x =>
          x * aggregateAt rules (fuzzify ⟨10, 12, 0, 95, 1⟩) OutVar.waiting_time x).sum /
      (OutVar.waiting_time.universe.map
          (aggregateAt rules (fuzzify ⟨10, 12, 0, 95, 1⟩) OutVar.waiting_time)).sum :=
  (C6_structured_results 10 12 0 95 1).2
    ⟨1, "Area A (Closest to entrance)", 19/12, "Very Short (< 3 minutes)"⟩ eval_input1

/-- C7: on the tuple `(traffic 10, time 12, weather 0, vacancy 95,
user 1)` the inference succeeds, the recommended-area centroid falls in
the Area A bucket (value < 1.5) and the waiting-time centroid falls in
the Very Short bucket (value < 3). -/
theorem C7_showcase_input :
    ∃ out, get_recommendation 10 12 0 95 1 = .ok out ∧
      out.recommended_area_value < 3/2 ∧
      out.recommended_area_text = "Area A (Closest to entrance)" ∧
      out.waiting_time_value < 3 ∧
      out.waiting_time_text = "Very Short (< 3 minutes)" :=
  ⟨⟨1, "Area A (Closest to entrance)", 19/12, "Very Short (< 3 minutes)"⟩,
    eval_input1, by norm_num, rfl, by norm_num, rfl⟩

/-- C10: whenever `get_recommendation` succeeds, the result has exactly
the four fields of `Recommendation`, and each text field is the
threshold-table label of the corresponding numeric field, so the textual
and numeric outputs cannot disagree. -/
theorem C10_result_shape (t tm w v u : ℚ) (out : Recommendation)
    (h : get_recommendation t tm w v u = .ok out) :
    out = ⟨out.recommended_area_value, get_area_text out.recommended_area_value,
           out.waiting_time_value, get_waiting_time_text out.waiting_time_value⟩ := by
  simp only [get_recommendation, get_recommendation_with] at h
  split_ifs at h
  all_goals try exact Except.noConfusion h
  cases hc1 : centroid OutVar.recommended_area.universe
      (aggregateAt rules (fuzzify ⟨t, tm, w, v, u⟩) OutVar.recommended_area) with
  | none => rw [hc1] at h; exact Except.noConfusion h
  | some a =>
    cases hc2 : centroid OutVar.waiting_time.universe
        (aggregateAt rules (fuzzify ⟨t, tm, w, v, u⟩) OutVar.waiting_time) with
    | none => rw [hc1, hc2] at h; exact Except.noConfusion h
    | some wv =>
      rw [hc1, hc2] at h
      have h' : Except.ok (⟨a, get_area_text a, wv, get_waiting_time_text wv⟩ :
          Recommendation) = Except.ok out := h
      injection h' with h''
      rw [← h'']

/-- C10 witness: on the tuple `(10, 12, 0, 95, 1)` the successful result
agrees field-by-field with the labels recomputed from its numeric
values. -/
theorem C10_result_shape_witness :
    (⟨1, "Area A (Closest to entrance)", 19/12, "Very Short (< 3 minutes)"⟩ : Recommendation) =
      ⟨(1 : ℚ), get_area_text 1, 19/12, get_waiting_time_text (19/12)⟩ := by
  have h := C10_result_shape 10 12 0 95 1
    ⟨1, "Area A (Closest to entrance)", 19/12, "Very Short (< 3 minutes)"⟩ eval_input1
  exact h

/-- C8 counterexample: with weather 9 (Snow), user 4 (Disabled) and
mid-range traffic 50 and time 12, vacancy 0 lies in `[0,100]` yet the
recommended-area output is 2 — the "Area B" bucket, not "Area A" — so the
disabled-user override does not dominate for every vacancy value: the
rule `VeryLow & (Disabled | Staff) -> AreaC` also fires and pulls the
centroid to 2. -/
theorem C8_counterexample_low_vacancy :
    get_recommendation 50 12 9 0 4 =
      .ok ⟨2, "Area B", 1171/49, "Very Long (>23 minutes)"⟩ ∧
    ¬ ((2 : ℚ) < 3/2) ∧ get_area_text 2 = "Area B" :=
  ⟨eval_input4, by norm_num, by norm_num [get_area_text]⟩

/-- C8 (amended): with weather 9 (Snow), user 4 (Disabled), mid-range
traffic 50 and time 12, the recommendation resolves to "Area A" (crisp
value below 1.5) exactly for vacancy rates above 50/3: for every valid
vacancy rate in `(50/3, 100]` the label is Area A, while for every
vacancy rate in `[0, 50/3]` the crisp value is at least 1.5 and the
label is Area B — the VeryLow & (Disabled|Staff) → AreaC rule fires at
degree ≥ 1/3 there and pulls the centroid `(1+3s)/(1+s)` out of the
Area A bucket. -/
theorem C8_disabled_override (v : ℚ) (h0 : 0 ≤ v) (h100 : v ≤ 100) :
    (50/3 < v → ∃ out, get_recommendation 50 12 9 v 4 = .ok out ∧
      out.recommended_area_value < 3/2 ∧
      out.recommended_area_text = "Area A (Closest to entrance)") ∧
    (v ≤ 50/3 → ∃ out, get_recommendation 50 12 9 v 4 = .ok out ∧
      3/2 ≤ out.recommended_area_value ∧
      out.recommended_area_text = "Area B") := by
  obtain ⟨wv, hwv⟩ := cen_mC8_wait_exists v
  have hcen := cen_mC8_area_general v
  have hs0 := MF.degree_nonneg (MF.trap 0 0 10 20) v
  have hs1 := MF.degree_le_one (MF.trap 0 0 10 20) v
  have hget : get_recommendation 50 12 9 v 4 = .ok
      ⟨(1 + 3 * (MF.trap 0 0 10 20).degree v) / (1 + (MF.trap 0 0 10 20).degree v),
        get_area_text ((1 + 3 * (MF.trap 0 0 10 20).degree v) /
          (1 + (MF.trap 0 0 10 20).degree v)),
        wv, get_waiting_time_text wv⟩ := by
    simp only [get_recommendation, get_recommendation_with, fz_mC8]
    rw [if_neg (by norm_num), if_neg (by norm_num), if_neg (by norm_num),
      if_neg (fun hc => hc ⟨h0, h100⟩), if_neg (by norm_num), hcen, hwv]
  constructor
  · intro h53
    have hs := verylow_lt_third h53
    have hA : (1 + 3 * (MF.trap 0 0 10 20).degree v) /
        (1 + (MF.trap 0 0 10 20).degree v) < 3/2 := by
      rw [div_lt_iff (by linarith)]
      linarith
    exact ⟨_, hget, hA, by rw [get_area_text, if_pos hA]⟩
  · intro h53
    have hs := verylow_ge_third h0 h53
    have hA : 3/2 ≤ (1 + 3 * (MF.trap 0 0 10 20).degree v) /
        (1 + (MF.trap 0 0 10 20).degree v) := by
      rw [le_div_iff (by linarith)]
      linarith
    have hB : (1 + 3 * (MF.trap 0 0 10 20).degree v) /
        (1 + (MF.trap 0 0 10 20).degree v) < 5/2 := by
      rw [div_lt_iff (by linarith)]
      linarith
    exact ⟨_, hget, hA, by rw [get_area_text, if_neg (not_lt.mpr hA), if_pos hB]⟩

/-- C8 witness: at vacancy 60 the recommendation is Area A; at vacancy 5
the crisp area value is at least 1.5 and the label is Area B (snow,
disabled user, mid-range traffic and time throughout). -/
theorem C8_disabled_override_witness :
    ((0 : ℚ) ≤ 60 ∧ (60 : ℚ) ≤ 100 ∧ (50/3 : ℚ) < 60 ∧
      ∃ out, get_recommendation 50 12 9 60 4 = .ok out ∧
        out.recommended_area_value < 3/2 ∧
        out.recommended_area_text = "Area A (Closest to entrance)") ∧
    ((0 : ℚ) ≤ 5 ∧ (5 : ℚ) ≤ 100 ∧ (5 : ℚ) ≤ 50/3 ∧
      ∃ out, get_recommendation 50 12 9 5 4 = .ok out ∧
        3/2 ≤ out.recommended_area_value ∧
        out.recommended_area_text = "Area B") :=
  ⟨⟨by norm_num, by norm_num, by norm_num,
      (C8_disabled_override 60 (by norm_num) (by norm_num)).1 (by norm_num)⟩,
    ⟨by norm_num, by norm_num, by norm_num,
      (C8_disabled_override 5 (by norm_num) (by norm_num)).2 (by norm_num)⟩⟩

end FuzzyParking
